import Mathlib

/-!
Shallow embedding of gazebo's Simbody topology-construction subsystem
(`gazebo/physics/simbody/SimbodyPhysics.cc`) and of the Bullet slider joint
(`gazebo/physics/bullet/BulletSliderJoint.cc`), together with proofs of the
specification claims about them.

Machine `double` values are modelled as exact rationals (`ℚ`) except for the
frame/pose converters, which need square roots and are modelled over `ℝ`.
-/

namespace Gz

/-! ## Joint types and `SimbodyPhysics::GetTypeString`

The source switches on Gazebo `physics::Base::EntityType` bit flags
(`BALL_JOINT`, `HINGE2_JOINT`, `HINGE_JOINT`, `SLIDER_JOINT`, `SCREW_JOINT`,
`UNIVERSAL_JOINT`).  Each joint object carries exactly one of these flags, so
the if-chain of `GetTypeString` (SimbodyPhysics.cc:1118-1132) is a total map
from the joint kind to its name string; we embed the kinds as an inductive. -/

inductive JointKind where
  | ball
  | hinge2
  | hinge
  | slider
  | screw
  | universal
deriving DecidableEq, Repr

/-- `SimbodyPhysics::GetTypeString` (SimbodyPhysics.cc:1090-1133): maps a
joint entity-type flag to the multibody-graph joint-type name, following the
if-chain order ball, revolute2, revolute, prismatic, screw, universal. -/
def GetTypeString : JointKind → String
  | JointKind.ball => "ball"
  | JointKind.hinge2 => "revolute2"
  | JointKind.hinge => "revolute"
  | JointKind.slider => "prismatic"
  | JointKind.screw => "screw"
  | JointKind.universal => "universal"

/-! ## Multibody graph construction (`SimbodyPhysics::CreateMultibodyGraph`)

We record every call made to the `SimTK::MultibodyGraphMaker` as an event in a
trace, in the order the source makes them, together with the `gzerr`
diagnostics emitted along the way. -/

/-- One call made to the `SimTK::MultibodyGraphMaker` by
`CreateMultibodyGraph`.  `addJointType name dofs haveLoop` mirrors
`MultibodyGraphMaker::addJointType`; `addBody name mass mustBeBase` mirrors
`addBody` (mass `none` stands for `SimTK::Infinity`, used for the world
body); `addJoint name type parent child mustBreakLoop` mirrors `addJoint`;
`generateGraph` mirrors `generateGraph`. -/
inductive GraphCall where
  | addJointType (name : String) (dofs : Nat) (haveLoop : Bool)
  | addBody (name : String) (mass : Option ℚ) (mustBeBase : Bool)
  | addJoint (name : String) (type : String) (parent : String) (child : String)
      (mustBreakLoop : Bool)
  | generateGraph
deriving DecidableEq, Repr

/-- The link data `CreateMultibodyGraph` reads: name, mass
(`GetInertial()->GetMass()`), the `mustBeBaseLink` flag of `SimbodyLink`, and
whether the `dynamic_pointer_cast<SimbodyLink>` succeeds (`castOk`). -/
structure GLink where
  name : String
  mass : ℚ
  mustBeBaseLink : Bool
  castOk : Bool
deriving DecidableEq, Repr

/-- The joint data `CreateMultibodyGraph` reads: name, type, optional parent
and child links (absent pointer modelled as `none`), the `mustBreakLoopHere`
flag of `SimbodyJoint`, and whether the `dynamic_pointer_cast<SimbodyJoint>`
succeeds (`castOk`). -/
structure GJoint where
  name : String
  kind : JointKind
  parent : Option String
  child : Option String
  mustBreakLoopHere : Bool
  castOk : Bool
deriving DecidableEq, Repr

/-- Modelled from the spec: the graph maker's predefined joint types — "weld"
and "free" "are always predefined at 0 and 6 dofs" (source comment at
SimbodyPhysics.cc:588; `SimTK::MultibodyGraphMaker` itself is library code
outside this repository). -/
def predefinedJointTypes : List (String × Nat) := [("weld", 0), ("free", 6)]

/-- Step 1 of `CreateMultibodyGraph` (SimbodyPhysics.cc:587-600): the joint
type registrations, in source order.  The ball joint is registered with an
explicit `false` for the good-loop-joint flag; the others use the default
(`false`). -/
def jointTypeRegistrations : List GraphCall :=
  [GraphCall.addJointType (GetTypeString JointKind.hinge) 1 false,
   GraphCall.addJointType (GetTypeString JointKind.hinge2) 2 false,
   GraphCall.addJointType (GetTypeString JointKind.slider) 1 false,
   GraphCall.addJointType (GetTypeString JointKind.universal) 2 false,
   GraphCall.addJointType (GetTypeString JointKind.screw) 1 false,
   GraphCall.addJointType (GetTypeString JointKind.ball) 3 false]

/-- Step 2 of `CreateMultibodyGraph` (SimbodyPhysics.cc:602-621): register the
world body, then each model link; a link that fails the
`dynamic_pointer_cast<SimbodyLink>` is reported via `gzerr` and skipped.
Returns the graph calls and the `gzerr` messages. -/
def addBodyCalls (links : List GLink) : List GraphCall × List String :=
  links.foldl
    (fun acc l =>
      if l.castOk then
        (acc.1 ++ [GraphCall.addBody l.name (some l.mass) l.mustBeBaseLink], acc.2)
      else
        (acc.1, acc.2 ++ ["simbodyLink [" ++ l.name ++ "]is not a SimbodyLinkPtr"]))
    ([GraphCall.addBody "world" none false], [])

/-- Step 3 of `CreateMultibodyGraph` (SimbodyPhysics.cc:623-646): register
each joint as a graph edge.  A joint with parent and child uses them; a joint
with only a child uses "world" as parent; a joint with no valid child link is
reported via `gzerr` and skipped; a joint failing the cast is reported via
`gzerr` and skipped. -/
def addJointCalls (joints : List GJoint) : List GraphCall × List String :=
  joints.foldl
    (fun acc j =>
      if j.castOk then
        match j.parent, j.child with
        | some p, some c =>
          (acc.1 ++ [GraphCall.addJoint j.name (GetTypeString j.kind) p c
              j.mustBreakLoopHere], acc.2)
        | none, some c =>
          (acc.1 ++ [GraphCall.addJoint j.name (GetTypeString j.kind) "world" c
              j.mustBreakLoopHere], acc.2)
        | _, none =>
          (acc.1, acc.2 ++ ["simbodyJoint [" ++ j.name ++
              "] does not have a valid child link, which is required"])
      else
        (acc.1, acc.2 ++ ["simbodyJoint [" ++ j.name ++ "]is not a SimbodyJointPtr"]))
    ([], [])

/-- `SimbodyPhysics::CreateMultibodyGraph` (SimbodyPhysics.cc:584-650): the
full trace of `MultibodyGraphMaker` calls (joint-type registrations, then
bodies, then joints, then `generateGraph`), paired with the `gzerr`
diagnostics. -/
def CreateMultibodyGraph (links : List GLink) (joints : List GJoint) :
    List GraphCall × List String :=
  let bodies := addBodyCalls links
  let js := addJointCalls joints
  (jointTypeRegistrations ++ bodies.1 ++ js.1 ++ [GraphCall.generateGraph],
   bodies.2 ++ js.2)

/-! ## Screw-joint thread pitch handling -/

/-- `ignition::math::equal(a, b)` with its default tolerance `1e-6`
(external `ignition::math` helper used at SimbodyPhysics.cc:812):
`fabs(a - b) <= 1e-6`. -/
def ignEqual (a b : ℚ) : Bool := |a - b| ≤ 1 / 1000000

/-- The screw-mobilizer parameters produced by the `type == "screw"` branch of
`AddDynamicModelToSimbodySystem` (SimbodyPhysics.cc:802-828): the pitch
actually used (after the zero-pitch substitution), the translation ratio
`-1.0/pitch` passed to `MobilizedBody::Screw`, and whether the zero-pitch
warning was emitted. -/
structure ScrewParams where
  pitchUsed : ℚ
  ratio : ℚ
  warned : Bool
deriving DecidableEq, Repr

/-- The pitch logic of the screw branch (SimbodyPhysics.cc:809-827): if
`ignition::math::equal(pitch, 0.0)` the code warns "thread pitch should not be
zero" and substitutes `pitch = 1.0e6`; the mobilizer is constructed with
translation ratio `-1.0/pitch`. -/
def screwPitchParams (threadPitch : ℚ) : ScrewParams :=
  let warned := ignEqual threadPitch 0
  let pitch := if warned then 1000000 else threadPitch
  { pitchUsed := pitch, ratio := -1 / pitch, warned := warned }

/-! ## Collision attachment (`SimbodyPhysics::AddCollisionsToLink`) -/

/-- The shape kinds the collision switch at SimbodyPhysics.cc:1172-1266
distinguishes: plane, sphere, cylinder, box, and anything else (reported as
unimplemented). -/
inductive ShapeKind where
  | plane (normal : ℚ × ℚ × ℚ)
  | sphere (radius : ℚ)
  | cylinder (radius : ℚ) (length : ℚ)
  | box (sizeX sizeY sizeZ : ℚ)
  | unsupported (tag : Nat)
deriving DecidableEq, Repr

/-- One collision object of a link: its shape. -/
structure GzCollision where
  shape : ShapeKind
deriving DecidableEq, Repr

/-- The link data `AddCollisionsToLink` reads: the `GetSelfCollide` flag and
the collision list. -/
structure CLink where
  selfCollide : Bool
  collisions : List GzCollision
deriving DecidableEq, Repr

/-- Which body a created contact surface is attached to: the ground body
(`matter.Ground()`) or the link's mobilized body (`_mobod`). -/
inductive SurfTarget where
  | ground
  | linkBody
deriving DecidableEq, Repr

/-- The contact geometry carried by a created surface. -/
inductive ContactGeom where
  | halfSpace
  | sphere (radius : ℚ)
  | triMeshCylinder (radius : ℚ) (halfLength : ℚ)
  | triMeshBrick (hx hy hz : ℚ)
deriving DecidableEq, Repr

/-- A contact surface created by `AddCollisionsToLink`: its target body, its
geometry, and the contact clique it joined (`none` when `joinClique` was not
called). -/
structure Surface where
  target : SurfTarget
  geom : ContactGeom
  clique : Option Nat
deriving DecidableEq, Repr

/-- `SimbodyPhysics::AddCollisionsToLink` (SimbodyPhysics.cc:1142-1268).
`modelClique` is the passed `ContactCliqueId`; `none` models an invalid id
(`ContactCliqueId()`), `some c` a valid one.  The flag
`addModelClique = _modelClique.isValid() && !_link->GetSelfCollide()`
(line 1162) decides clique membership of every surface attached to the
link's body.  The plane branch additionally adds a half-space surface to the
ground body, which never joins the clique.  Unsupported shapes are reported
and skipped.  Returns the created surfaces and the `gzerr` messages. -/
def AddCollisionsToLink (link : CLink) (modelClique : Option Nat) :
    List Surface × List String :=
  let addModelClique := modelClique.isSome && !link.selfCollide
  let joined := if addModelClique then modelClique else none
  link.collisions.foldl
    (fun acc c =>
      match c.shape with
      | ShapeKind.plane _ =>
        (acc.1 ++ [{ target := SurfTarget.ground, geom := ContactGeom.halfSpace,
                     clique := none },
                   { target := SurfTarget.linkBody, geom := ContactGeom.halfSpace,
                     clique := joined }], acc.2)
      | ShapeKind.sphere r =>
        (acc.1 ++ [{ target := SurfTarget.linkBody, geom := ContactGeom.sphere r,
                     clique := joined }], acc.2)
      | ShapeKind.cylinder r len =>
        (acc.1 ++ [{ target := SurfTarget.linkBody,
                     geom := ContactGeom.triMeshCylinder r (len / 2),
                     clique := joined }], acc.2)
      | ShapeKind.box sx sy sz =>
        (acc.1 ++ [{ target := SurfTarget.linkBody,
                     geom := ContactGeom.triMeshBrick (sx / 2) (sy / 2) (sz / 2),
                     clique := joined }], acc.2)
      | ShapeKind.unsupported tag =>
        (acc.1, acc.2 ++ ["Collision type [" ++ toString tag ++ "] unimplemented"]))
    ([], [])

/-- `SimbodyPhysics::AddStaticModelToSimbodySystem` (SimbodyPhysics.cc:667-685):
every link of a static model gets its collisions attached to the ground body
with an invalid clique id (`ContactCliqueId()`, modelled as `none`). -/
def AddStaticModelToSimbodySystem (links : List CLink) :
    List Surface × List String :=
  links.foldl
    (fun acc l =>
      let r := AddCollisionsToLink l none
      (acc.1 ++ r.1, acc.2 ++ r.2))
    ([], [])

/-! ## Mobilizer synthesis (`SimbodyPhysics::AddDynamicModelToSimbodySystem`)

We embed the per-mobilizer body of the loop at SimbodyPhysics.cc:704-1037 for
mobilizers that correspond to an input joint (the `else` branch starting at
line 774).  Solver transforms (`SimTK::Transform`) are kept as an abstract
type parameter `τ`: the claims concern which of the joint's stored frames
`xPA` / `xCB` each constructor argument is built from, not their numeric
content. -/

/-- `MobilizedBody::Direction` (Forward / Reverse). -/
inductive MobDir where
  | Forward
  | Reverse
deriving DecidableEq, Repr

/-- One transform argument handed to a `MobilizedBody` constructor: the base
frame it was built from (`X_IF0` or `X_OM0`) and whether the joint-axis
alignment rotation (`R_JZ`, `R_JF` or `R_JX`) was composed onto its rotation
part, as in `Transform(X_IF0.R()*R_JZ, X_IF0.p())`. -/
structure FrameArg (τ : Type) where
  base : τ
  axisRotated : Bool

/-- The concrete `MobilizedBody` subtype created for each joint type string;
`screw` carries the translation ratio `-1.0/pitch` passed to
`MobilizedBody::Screw`. -/
inductive MobKind where
  | free
  | screw (ratio : ℚ)
  | universal
  | pin
  | slider
  | ball
deriving DecidableEq, Repr

/-- A constructed mobilized body: subtype, inboard and outboard frame
arguments, direction, and — for `free` / `ball` — whether the default
transform/rotation was taken from `~defxAB` (`some true`) or `defxAB`
(`some false`). -/
structure Mobilizer (τ : Type) where
  kind : MobKind
  inboard : FrameArg τ
  outboard : FrameArg τ
  direction : MobDir
  defaultFromInverse : Option Bool

/-- A force element attached by the synthesis loop.  `limitStop axis stiff
diss low high` mirrors `Force::MobilityLinearStop(forces, mobod,
MobilizerQIndex(axis), stopStiffness, stopDissipation, low, high)`;
`damper axis coef` mirrors `Force::MobilityLinearDamper`; `spring axis stiff
ref` mirrors `Force::MobilityLinearSpring`. -/
inductive ForceElem where
  | limitStop (axis : Nat) (stiff diss low high : ℚ)
  | damper (axis : Nat) (coef : ℚ)
  | spring (axis : Nat) (stiff ref : ℚ)
deriving DecidableEq, Repr

/-- The `SimbodyJoint` fields the synthesis loop reads and writes: the stored
parent/child frames `xPA`, `xCB`, the default transform `defxAB`, the screw
thread pitch, the per-axis limit/stop/damping/spring parameters (indexed by
axis number), and the output fields `mobod` (`none` models the empty
default-constructed `MobilizedBody` handle) and `isReversed`. -/
structure SynthJoint (τ : Type) where
  xPA : τ
  xCB : τ
  defxAB : τ
  threadPitch : ℚ
  lowerLimit : Nat → ℚ
  upperLimit : Nat → ℚ
  stopStiffness : Nat → ℚ
  stopDissipation : Nat → ℚ
  damping : Nat → ℚ
  stiffness : Nat → ℚ
  springRef : Nat → ℚ
  mobod : Option (Mobilizer τ)
  isReversed : Bool

/-- The three force elements created for one controllable axis `n`, in source
order: limit stop (from `GetLowerLimit` / `GetUpperLimit` /
`GetStopStiffness` / `GetStopDissipation`), then a damper "created even if
damping coefficient is zero", then a spring (from `GetStiffness` /
`GetSpringReferencePosition`). -/
def axisForceElems (j : SynthJoint τ) (n : Nat) : List ForceElem :=
  [ForceElem.limitStop n (j.stopStiffness n) (j.stopDissipation n)
      (j.lowerLimit n) (j.upperLimit n),
   ForceElem.damper n (j.damping n),
   ForceElem.spring n (j.stiffness n) (j.springRef n)]

/-- The joint-backed mobilizer construction (SimbodyPhysics.cc:774-1021):
compute `X_IF0` / `X_OM0` / `direction` from the graph's `isReversed` flag
(lines 785-789), then dispatch on the joint type name, building the
mobilized body, attaching per-axis force elements, and reporting an
unrecognized type via `gzerr`.  Returns the constructed mobilizer (if any),
the force elements, and the `gzerr` messages. -/
def mobilizerFor (type : String) (isReversed : Bool) (j : SynthJoint τ) :
    Option (Mobilizer τ) × List ForceElem × List String :=
  let xif0 : τ := if isReversed then j.xCB else j.xPA
  let xom0 : τ := if isReversed then j.xPA else j.xCB
  let dir : MobDir := if isReversed then MobDir.Reverse else MobDir.Forward
  if type = "free" then
    (some { kind := MobKind.free, inboard := ⟨xif0, false⟩,
            outboard := ⟨xom0, false⟩, direction := dir,
            defaultFromInverse := some isReversed }, [], [])
  else if type = "screw" then
    let sp := screwPitchParams j.threadPitch
    (some { kind := MobKind.screw sp.ratio, inboard := ⟨xif0, true⟩,
            outboard := ⟨xom0, true⟩, direction := dir,
            defaultFromInverse := none },
     axisForceElems j 0,
     if sp.warned then
       ["thread pitch should not be zero (joint is a slider?) using pitch = 1.0e6"]
     else [])
  else if type = "universal" then
    (some { kind := MobKind.universal, inboard := ⟨xif0, true⟩,
            outboard := ⟨xom0, true⟩, direction := dir,
            defaultFromInverse := none },
     axisForceElems j 0 ++ axisForceElems j 1, [])
  else if type = "revolute" then
    (some { kind := MobKind.pin, inboard := ⟨xif0, true⟩,
            outboard := ⟨xom0, true⟩, direction := dir,
            defaultFromInverse := none },
     axisForceElems j 0, [])
  else if type = "prismatic" then
    (some { kind := MobKind.slider, inboard := ⟨xif0, true⟩,
            outboard := ⟨xom0, true⟩, direction := dir,
            defaultFromInverse := none },
     axisForceElems j 0, [])
  else if type = "ball" then
    (some { kind := MobKind.ball, inboard := ⟨xif0, false⟩,
            outboard := ⟨xom0, false⟩, direction := dir,
            defaultFromInverse := some isReversed }, [], [])
  else
    (none, [], ["Simbody joint type [" ++ type ++ "] not implemented."])

/-- The full joint-backed step including the final stores
`gzJoint->mobod = mobod; gzJoint->isReversed = isReversed;`
(SimbodyPhysics.cc:1023-1025).  Returns the updated joint, the constructed
mobilizer, the force elements, and the diagnostics. -/
def AddJointMobilizer (type : String) (isReversed : Bool) (j : SynthJoint τ) :
    SynthJoint τ × Option (Mobilizer τ) × List ForceElem × List String :=
  let r := mobilizerFor type isReversed j
  ({ j with mobod := r.1, isReversed := isReversed }, r.1, r.2.1, r.2.2)

/-! ## `BulletSliderJoint::SetHighStop` / `SetLowStop` -/

/-- The fields of the native `btSliderConstraint` the slider joint touches:
its linear limits. -/
structure BtSlider where
  lowerLin : ℚ
  upperLin : ℚ
deriving DecidableEq, Repr

/-- The `BulletSliderJoint` state relevant to the stop setters: the generic
`Joint`-level stored stops and the optional native constraint
(`bulletSlider`, `none` before `Init()` creates it). -/
structure BulletSliderJoint where
  storedHigh : ℚ
  storedLow : ℚ
  bulletSlider : Option BtSlider
deriving DecidableEq, Repr

/-- Modelled from the spec: `Joint::SetHighStop` (the generic `Joint` base
class, `gazebo/physics/Joint.cc`, is not under `src/`) records the high-stop
value on the generic joint. -/
def JointSetHighStop (j : BulletSliderJoint) (a : ℚ) : BulletSliderJoint :=
  { j with storedHigh := a }

/-- Modelled from the spec: `Joint::SetLowStop` (the generic `Joint` base
class, `gazebo/physics/Joint.cc`, is not under `src/`) records the low-stop
value on the generic joint. -/
def JointSetLowStop (j : BulletSliderJoint) (a : ℚ) : BulletSliderJoint :=
  { j with storedLow := a }

/-- `BulletSliderJoint::SetHighStop` (BulletSliderJoint.cc:258-272): first
calls `Joint::SetHighStop(0, _angle)`, then — only if the native constraint
exists — sets its upper linear limit and returns `true`; otherwise reports
via `gzerr` and returns `false`.  Returns the resulting joint state and the
boolean result. -/
def SetHighStop (j : BulletSliderJoint) (angle : ℚ) : BulletSliderJoint × Bool :=
  let j1 := JointSetHighStop j angle
  match j1.bulletSlider with
  | some s => ({ j1 with bulletSlider := some { s with upperLin := angle } }, true)
  | none => (j1, false)

/-- `BulletSliderJoint::SetLowStop` (BulletSliderJoint.cc:275-289): first
calls `Joint::SetLowStop(0, _angle)`, then — only if the native constraint
exists — sets its lower linear limit and returns `true`; otherwise reports
via `gzerr` and returns `false`. -/
def SetLowStop (j : BulletSliderJoint) (angle : ℚ) : BulletSliderJoint × Bool :=
  let j1 := JointSetLowStop j angle
  match j1.bulletSlider with
  | some s => ({ j1 with bulletSlider := some { s with lowerLin := angle } }, true)
  | none => (j1, false)

/-! ## Topology rebuild and state transfer (`SimbodyPhysics::InitModel`)

`InitModel` (SimbodyPhysics.cc:257-394) is embedded as a function over an
explicit world/solver-state model.  The solver's generalized coordinates are
opaque data (`α`) keyed by a stable joint/link identity (`Nat`), matching the
spec's "captured/restored by identity, never parsed".  The outcome of the
native build phase (`AddStaticModelToSimbodySystem` /
`CreateMultibodyGraph` + `AddDynamicModelToSimbodySystem`) and of
`InitSimbodySystem` are passed in as `Except` values so the exception
wrapping at lines 296-329 is explicit. -/

/-- `SimTK::Stage` of the integrator's current state; only `Empty` versus
non-`Empty` matters to `InitModel` (line 265).  (The full SimTK list also
contains an `Instance` stage, omitted here because `Instance` is a Lean
keyword; no claim distinguishes the non-`Empty` stages.) -/
inductive SStage where
  | Empty
  | Topology
  | Model
  | Time
  | Position
  | Velocity
  | Dynamics
  | Report
deriving DecidableEq, Repr

/-- The solver-internal state a `SimTK::State` carries, as `InitModel` uses
it: system stage, global simulation time, and per-joint / per-link
generalized position/velocity data keyed by stable identity. -/
structure SolverState (α : Type) where
  stage : SStage
  time : ℚ
  jointQ : Nat → α
  linkQ : Nat → α

/-- The Gazebo-side `SimbodyJoint` data relevant to state transfer: its
stable identity and the saved-state buffer `SaveSimbodyState` fills. -/
structure SJoint (α : Type) where
  id : Nat
  savedState : α

/-- The Gazebo-side `SimbodyLink` data relevant to state transfer. -/
structure SLink (α : Type) where
  id : Nat
  savedState : α

/-- A model: identity plus its joints and links. -/
structure SModel (α : Type) where
  id : Nat
  joints : List (SJoint α)
  links : List (SLink α)

/-- The world: its list of models (`world->GetModels()`). -/
structure SWorld (α : Type) where
  models : List (SModel α)

/-- Modelled from the spec: `SimbodyJoint::SaveSimbodyState`
(SimbodyJoint.cc is not under `src/`) — "capture solver-internal generalized
position/velocity state keyed by a stable joint/link identity" into the
Gazebo-side buffer. -/
def SJoint.SaveSimbodyState (s : SolverState α) (j : SJoint α) : SJoint α :=
  { j with savedState := s.jointQ j.id }

/-- Modelled from the spec: `SimbodyLink::SaveSimbodyState`
(SimbodyLink.cc is not under `src/`). -/
def SLink.SaveSimbodyState (s : SolverState α) (l : SLink α) : SLink α :=
  { l with savedState := s.linkQ l.id }

/-- Modelled from the spec: `SimbodyJoint::RestoreSimbodyState`
(SimbodyJoint.cc is not under `src/`) — "restore previously captured values
into the matching joint". -/
def SJoint.RestoreSimbodyState (j : SJoint α) (s : SolverState α) :
    SolverState α :=
  { s with jointQ := fun i => if i = j.id then j.savedState else s.jointQ i }

/-- Modelled from the spec: `SimbodyLink::RestoreSimbodyState`
(SimbodyLink.cc is not under `src/`). -/
def SLink.RestoreSimbodyState (l : SLink α) (s : SolverState α) :
    SolverState α :=
  { s with linkQ := fun i => if i = l.id then l.savedState else s.linkQ i }

/-- The capture loop body for one model (SimbodyPhysics.cc:274-290): save
every joint's, then every link's solver state into the Gazebo-side buffers. -/
def saveModelStates (cur : SolverState α) (m : SModel α) : SModel α :=
  { m with joints := m.joints.map (SJoint.SaveSimbodyState cur),
           links := m.links.map (SLink.SaveSimbodyState cur) }

/-- The capture phase (SimbodyPhysics.cc:265-294): for every model other than
the one being (re)initialized (compared by identity, line 272), save all
joint and link states from the integrator's current state. -/
def saveAllExcept (w : SWorld α) (mid : Nat) (cur : SolverState α) :
    SWorld α :=
  { models := w.models.map (fun mi =>
      if mi.id = mid then mi else saveModelStates cur mi) }

/-- The restore loop body for one model (SimbodyPhysics.cc:344-360): restore
every joint's, then every link's buffer into the new state. -/
def restoreModel (m : SModel α) (s : SolverState α) : SolverState α :=
  m.links.foldl (fun st l => l.RestoreSimbodyState st)
    (m.joints.foldl (fun st j => j.RestoreSimbodyState st) s)

/-- The restore phase (SimbodyPhysics.cc:340-361): iterate over all models of
the world (including the one being initialized). -/
def restoreAll (w : SWorld α) (s : SolverState α) : SolverState α :=
  w.models.foldl (fun st mi => restoreModel mi st) s

/-- `system.realizeTopology()` (SimbodyPhysics.cc:331): the new topology's
state, with default (rest) generalized coordinates and time 0. -/
def realizeTopology (dflt : α) : SolverState α :=
  { stage := SStage.Topology, time := 0,
    jointQ := fun _ => dflt, linkQ := fun _ => dflt }

/-- `SimbodyPhysics::InitModel` (SimbodyPhysics.cc:257-394).  `mid` is the
identity of the model `_model` being initialized; `cur` is
`integ->getState()`; `dflt` the default generalized coordinate; `buildRes` /
`initRes` the outcomes of the native build phase and of
`InitSimbodySystem()`.  On success it returns the updated world (with the
capture-phase buffers) and the state that is passed to
`integ->initialize(state)` (line 364) — i.e. the state as it stands when the
integrator is re-initialized, after any restore.  Exceptions of the two
native phases are rethrown with the "Simbody build EXCEPTION: " /
"Simbody init EXCEPTION: " prefixes (lines 315-318, 326-329). -/
def InitModel (w : SWorld α) (mid : Nat) (cur : SolverState α) (dflt : α)
    (buildRes : Except String Unit) (initRes : Except String Unit) :
    Except String (SWorld α × SolverState α) :=
  let saved : Bool := decide (cur.stage ≠ SStage.Empty)
  let stateTime : ℚ := if saved then cur.time else 0
  let w2 := if saved then saveAllExcept w mid cur else w
  match buildRes with
  | Except.error e => Except.error ("Simbody build EXCEPTION: " ++ e)
  | Except.ok _ =>
    match initRes with
    | Except.error e => Except.error ("Simbody init EXCEPTION: " ++ e)
    | Except.ok _ =>
      let st0 := realizeTopology dflt
      let st1 := if saved then restoreAll w2 { st0 with time := stateTime }
                 else st0
      Except.ok (w2, st1)

/-- All joint identities of a list of models, in iteration order. -/
def allJointIds : List (SModel α) → List Nat
  | [] => []
  | m :: ms => m.joints.map SJoint.id ++ allJointIds ms

/-- All link identities of a list of models, in iteration order. -/
def allLinkIds : List (SModel α) → List Nat
  | [] => []
  | m :: ms => m.links.map SLink.id ++ allLinkIds ms

/-! ## Frame/pose converters (`Pose2Transform` / `Transform2Pose`)

`SimbodyPhysics::Pose2Transform` (SimbodyPhysics.cc:1308-1317) builds a
`SimTK::Transform` from an `ignition::math::Pose3d`:
`SimTK::Quaternion q(w, X, Y, Z)` (the SimTK constructor normalizes its
input) followed by `SimTK::Rotation(q)` (quaternion → matrix) and the
position copied verbatim.  `SimbodyPhysics::Transform2Pose`
(SimbodyPhysics.cc:1319-1328) extracts `SimTK::Quaternion q(_xAB.R())`
(matrix → quaternion) and copies the position back.  The two `SimTK`
conversions are library code external to this repository; they are embedded
here from Simbody's `Rotation::setRotationFromQuaternion` (the standard
homogeneous quadratic form) and `Rotation::convertRotationToQuaternion`
(Shepperd's method: pick the branch whose squared component is largest,
normalize, and canonicalize the scalar part to be non-negative).
`double` arithmetic is modelled as exact `ℝ`. -/

/-- A quaternion `(w, x, y, z)` with scalar part `w`. -/
@[ext] structure Quat where
  w : ℝ
  x : ℝ
  y : ℝ
  z : ℝ

/-- A 3-vector. -/
@[ext] structure V3 where
  x : ℝ
  y : ℝ
  z : ℝ

/-- A 3×3 matrix, entry `mij` at row `i`, column `j`. -/
@[ext] structure Rot3 where
  m00 : ℝ
  m01 : ℝ
  m02 : ℝ
  m10 : ℝ
  m11 : ℝ
  m12 : ℝ
  m20 : ℝ
  m21 : ℝ
  m22 : ℝ

/-- A `SimTK::Transform`: rotation matrix and position. -/
@[ext] structure Xform where
  R : Rot3
  p : V3

/-- An `ignition::math::Pose3d`: position and rotation quaternion. -/
@[ext] structure Pose where
  pos : V3
  rot : Quat

/-- Squared norm of a quaternion. -/
def Quat.normSq (q : Quat) : ℝ := q.w ^ 2 + q.x ^ 2 + q.y ^ 2 + q.z ^ 2

/-- Componentwise scaling of a quaternion. -/
def Quat.smul (c : ℝ) (q : Quat) : Quat := ⟨c * q.w, c * q.x, c * q.y, c * q.z⟩

/-- Componentwise negation (the other representative of the same rotation). -/
def Quat.neg (q : Quat) : Quat := ⟨-q.w, -q.x, -q.y, -q.z⟩

/-- A unit quaternion. -/
def Quat.IsUnit (q : Quat) : Prop := q.normSq = 1

/-- The normalization performed by the `SimTK::Quaternion(e0,e1,e2,e3)`
constructor: divide by the norm (the zero-norm fallback never arises under
this development's unit-quaternion hypotheses). -/
noncomputable def Quat.normalized (q : Quat) : Quat :=
  if Real.sqrt q.normSq = 0 then ⟨1, 0, 0, 0⟩
  else Quat.smul (1 / Real.sqrt q.normSq) q

/-- `SimTK::Rotation(q)` / `Rotation::setRotationFromQuaternion`: the
homogeneous quadratic quaternion-to-matrix form (valid for unit `q`). -/
def Quat.toRot (q : Quat) : Rot3 :=
  { m00 := q.w ^ 2 + q.x ^ 2 - q.y ^ 2 - q.z ^ 2
    m01 := 2 * (q.x * q.y - q.w * q.z)
    m02 := 2 * (q.x * q.z + q.w * q.y)
    m10 := 2 * (q.x * q.y + q.w * q.z)
    m11 := q.w ^ 2 - q.x ^ 2 + q.y ^ 2 - q.z ^ 2
    m12 := 2 * (q.y * q.z - q.w * q.x)
    m20 := 2 * (q.x * q.z - q.w * q.y)
    m21 := 2 * (q.y * q.z + q.w * q.x)
    m22 := q.w ^ 2 - q.x ^ 2 - q.y ^ 2 + q.z ^ 2 }

/-- Trace of a 3×3 matrix. -/
def Rot3.trace (R : Rot3) : ℝ := R.m00 + R.m11 + R.m22

/-- Determinant of a 3×3 matrix. -/
def Rot3.det (R : Rot3) : ℝ :=
  R.m00 * (R.m11 * R.m22 - R.m12 * R.m21)
    - R.m01 * (R.m10 * R.m22 - R.m12 * R.m20)
    + R.m02 * (R.m10 * R.m21 - R.m11 * R.m20)

/-- A rotation matrix: orthonormal rows and determinant 1 (the rigid-body
orientation part of a rigid transform). -/
def Rot3.IsRigid (R : Rot3) : Prop :=
  R.m00 ^ 2 + R.m01 ^ 2 + R.m02 ^ 2 = 1 ∧
  R.m10 ^ 2 + R.m11 ^ 2 + R.m12 ^ 2 = 1 ∧
  R.m20 ^ 2 + R.m21 ^ 2 + R.m22 ^ 2 = 1 ∧
  R.m00 * R.m10 + R.m01 * R.m11 + R.m02 * R.m12 = 0 ∧
  R.m00 * R.m20 + R.m01 * R.m21 + R.m02 * R.m22 = 0 ∧
  R.m10 * R.m20 + R.m11 * R.m21 + R.m12 * R.m22 = 0 ∧
  R.det = 1

/-- A rigid transform: its rotation part is a rotation matrix. -/
def Xform.IsRigid (t : Xform) : Prop := t.R.IsRigid

/-- The unnormalized branch vector of Shepperd's method
(`Rotation::convertRotationToQuaternion`): pick the branch whose leading
quantity (`1+tr` or `1-(tr-2*Rii)`) is the largest. -/
noncomputable def Rot3.shepperdVec (R : Rot3) : Quat :=
  if R.trace ≥ R.m00 ∧ R.trace ≥ R.m11 ∧ R.trace ≥ R.m22 then
    ⟨1 + R.trace, R.m21 - R.m12, R.m02 - R.m20, R.m10 - R.m01⟩
  else if R.m00 ≥ R.m11 ∧ R.m00 ≥ R.m22 then
    ⟨R.m21 - R.m12, 1 - (R.trace - 2 * R.m00), R.m01 + R.m10, R.m02 + R.m20⟩
  else if R.m11 ≥ R.m22 then
    ⟨R.m02 - R.m20, R.m01 + R.m10, 1 - (R.trace - 2 * R.m11), R.m12 + R.m21⟩
  else
    ⟨R.m10 - R.m01, R.m02 + R.m20, R.m12 + R.m21, 1 - (R.trace - 2 * R.m22)⟩

/-- `SimTK::Quaternion(const Rotation&)` /
`Rotation::convertRotationToQuaternion`: normalize the Shepperd branch
vector, flipping the sign so the scalar part comes out non-negative. -/
noncomputable def Rot3.toQuat (R : Rot3) : Quat :=
  let v := R.shepperdVec
  let scale : ℝ :=
    if v.w < 0 then -Real.sqrt v.normSq else Real.sqrt v.normSq
  Quat.smul (1 / scale) v

/-- `SimbodyPhysics::Pose2Transform` (SimbodyPhysics.cc:1308-1317). -/
noncomputable def Pose2Transform (pose : Pose) : Xform :=
  { R := (pose.rot.normalized).toRot, p := pose.pos }

/-- `SimbodyPhysics::Transform2Pose` (SimbodyPhysics.cc:1319-1328). -/
noncomputable def Transform2Pose (t : Xform) : Pose :=
  { pos := t.p, rot := t.R.toQuat }

/-! # Theorems -/

/-! ## Helper characterizations of the fold-based loops -/

theorem addBodyCalls_foldl_eq (links : List GLink)
    (init : List GraphCall × List String) :
    links.foldl
      (fun acc l =>
        if l.castOk then
          (acc.1 ++ [GraphCall.addBody l.name (some l.mass) l.mustBeBaseLink],
           acc.2)
        else
          (acc.1,
           acc.2 ++ ["simbodyLink [" ++ l.name ++ "]is not a SimbodyLinkPtr"]))
      init =
    (init.1 ++ links.filterMap (fun l =>
        if l.castOk then
          some (GraphCall.addBody l.name (some l.mass) l.mustBeBaseLink)
        else none),
     init.2 ++ links.filterMap (fun l =>
        if l.castOk then none
        else some ("simbodyLink [" ++ l.name ++ "]is not a SimbodyLinkPtr"))) := by
  induction links generalizing init with
  | nil => simp
  | cons l t ih =>
    by_cases h : l.castOk <;> simp [h, ih]

theorem addBodyCalls_eq (links : List GLink) :
    addBodyCalls links =
    (GraphCall.addBody "world" none false ::
       links.filterMap (fun l =>
         if l.castOk then
           some (GraphCall.addBody l.name (some l.mass) l.mustBeBaseLink)
         else none),
     links.filterMap (fun l =>
       if l.castOk then none
       else some ("simbodyLink [" ++ l.name ++ "]is not a SimbodyLinkPtr"))) := by
  unfold addBodyCalls
  rw [addBodyCalls_foldl_eq]
  simp

/-- The graph call the joint-registration loop emits for one joint, if any. -/
theorem addJointCalls_foldl_eq (joints : List GJoint)
    (init : List GraphCall × List String) :
    joints.foldl
      (fun acc j =>
        if j.castOk then
          match j.parent, j.child with
          | some p, some c =>
            (acc.1 ++ [GraphCall.addJoint j.name (GetTypeString j.kind) p c
                j.mustBreakLoopHere], acc.2)
          | none, some c =>
            (acc.1 ++ [GraphCall.addJoint j.name (GetTypeString j.kind) "world" c
                j.mustBreakLoopHere], acc.2)
          | _, none =>
            (acc.1, acc.2 ++ ["simbodyJoint [" ++ j.name ++
                "] does not have a valid child link, which is required"])
        else
          (acc.1,
           acc.2 ++ ["simbodyJoint [" ++ j.name ++ "]is not a SimbodyJointPtr"]))
      init =
    (init.1 ++ joints.filterMap (fun j =>
        if j.castOk then
          match j.parent, j.child with
          | some p, some c =>
            some (GraphCall.addJoint j.name (GetTypeString j.kind) p c
              j.mustBreakLoopHere)
          | none, some c =>
            some (GraphCall.addJoint j.name (GetTypeString j.kind) "world" c
              j.mustBreakLoopHere)
          | _, none => none
        else none),
     init.2 ++ joints.filterMap (fun j =>
        if j.castOk then
          match j.parent, j.child with
          | some _, some _ => none
          | none, some _ => none
          | _, none =>
            some ("simbodyJoint [" ++ j.name ++
              "] does not have a valid child link, which is required")
        else some ("simbodyJoint [" ++ j.name ++ "]is not a SimbodyJointPtr"))) := by
  induction joints generalizing init with
  | nil => simp
  | cons j t ih =>
    by_cases h : j.castOk
    · rcases hp : j.parent with _ | p <;> rcases hc : j.child with _ | c <;>
        simp [h, hp, hc, ih]
    · simp [h, ih]

theorem addJointCalls_eq (joints : List GJoint) :
    addJointCalls joints =
    (joints.filterMap (fun j =>
        if j.castOk then
          match j.parent, j.child with
          | some p, some c =>
            some (GraphCall.addJoint j.name (GetTypeString j.kind) p c
              j.mustBreakLoopHere)
          | none, some c =>
            some (GraphCall.addJoint j.name (GetTypeString j.kind) "world" c
              j.mustBreakLoopHere)
          | _, none => none
        else none),
     joints.filterMap (fun j =>
        if j.castOk then
          match j.parent, j.child with
          | some _, some _ => none
          | none, some _ => none
          | _, none =>
            some ("simbodyJoint [" ++ j.name ++
              "] does not have a valid child link, which is required")
        else some ("simbodyJoint [" ++ j.name ++ "]is not a SimbodyJointPtr"))) := by
  unfold addJointCalls
  rw [addJointCalls_foldl_eq]
  simp

/-! ## C2: zero thread pitch on a screw joint -/

/-- C2: For every screw joint whose configured thread pitch equals zero,
mobilizer synthesis does not fail: the pitch actually used is never zero (so
the translation ratio `-1.0/pitch` is a well-defined, finite rational), a
pitch of exactly zero is substituted with `1.0e6` and warned about, and the
screw mobilizer is constructed with translation ratio `-1.0/1.0e6`. -/
theorem screw_zero_pitch_safe :
    (∀ p : ℚ, (screwPitchParams p).pitchUsed ≠ 0 ∧
      (screwPitchParams p).ratio = -1 / (screwPitchParams p).pitchUsed) ∧
    screwPitchParams 0 =
      { pitchUsed := 1000000, ratio := -1 / 1000000, warned := true } ∧
    (∀ (τ : Type) (j : SynthJoint τ) (rev : Bool), j.threadPitch = 0 →
      (mobilizerFor "screw" rev j).1 =
        some { kind := MobKind.screw (-1 / 1000000)
               inboard := ⟨if rev then j.xCB else j.xPA, true⟩
               outboard := ⟨if rev then j.xPA else j.xCB, true⟩
               direction := if rev then MobDir.Reverse else MobDir.Forward
               defaultFromInverse := none } ∧
      (mobilizerFor "screw" rev j).2.2 =
        ["thread pitch should not be zero (joint is a slider?) using pitch = 1.0e6"]) := by
  have hzero : screwPitchParams 0 =
      { pitchUsed := 1000000, ratio := -1 / 1000000, warned := true } := by
    simp [screwPitchParams, ignEqual]
  refine ⟨fun p => ?_, hzero, fun τ j rev hp => ?_⟩
  · by_cases h : ignEqual p 0 = true
    · constructor
      · simp [screwPitchParams, h]
      · simp [screwPitchParams, h]
    · have hne : p ≠ 0 := by
        intro h0
        apply h
        simp [ignEqual, h0]
      have hfalse : ignEqual p 0 = false := by
        simpa using h
      constructor
      · simpa [screwPitchParams, hfalse] using hne
      · simp [screwPitchParams, hfalse]
  · constructor
    · simp [mobilizerFor, hp, hzero]
    · simp [mobilizerFor, hp, hzero]

/-- Witness for `screw_zero_pitch_safe`: instantiated at a concrete joint
with zero thread pitch. -/
theorem screw_zero_pitch_safe_witness :
    (screwPitchParams 5).pitchUsed ≠ 0 ∧
    (mobilizerFor "screw" false
        { xPA := (0 : ℤ), xCB := 1, defxAB := 2, threadPitch := 0,
          lowerLimit := fun _ => 0, upperLimit := fun _ => 0,
          stopStiffness := fun _ => 0, stopDissipation := fun _ => 0,
          damping := fun _ => 0, stiffness := fun _ => 0,
          springRef := fun _ => 0, mobod := none, isReversed := false }).2.2 =
      ["thread pitch should not be zero (joint is a slider?) using pitch = 1.0e6"] :=
  ⟨(screw_zero_pitch_safe.1 5).1,
   ((screw_zero_pitch_safe.2.2 ℤ
      { xPA := (0 : ℤ), xCB := 1, defxAB := 2, threadPitch := 0,
        lowerLimit := fun _ => 0, upperLimit := fun _ => 0,
        stopStiffness := fun _ => 0, stopDissipation := fun _ => 0,
        damping := fun _ => 0, stiffness := fun _ => 0,
        springRef := fun _ => 0, mobod := none, isReversed := false }
      false rfl).2)⟩

/-! ## C6: joint-type registration order and degrees of freedom -/

/-- C6: `CreateMultibodyGraph` registers the joint types with the graph maker
with their degrees of freedom — revolute 1, revolute2 2, prismatic 1,
universal 2, screw 1, ball 3 — with weld = 0 and free = 6 predefined by the
graph maker; all registrations happen before any body or joint is added and
before `generateGraph` is called (which happens last). -/
theorem multibody_graph_joint_type_registration
    (links : List GLink) (joints : List GJoint) :
    predefinedJointTypes = [("weld", 0), ("free", 6)] ∧
    (CreateMultibodyGraph links joints).1.take 6 =
      [GraphCall.addJointType "revolute" 1 false,
       GraphCall.addJointType "revolute2" 2 false,
       GraphCall.addJointType "prismatic" 1 false,
       GraphCall.addJointType "universal" 2 false,
       GraphCall.addJointType "screw" 1 false,
       GraphCall.addJointType "ball" 3 false] ∧
    (∀ c ∈ (CreateMultibodyGraph links joints).1.drop 6,
       ∀ n d b, c ≠ GraphCall.addJointType n d b) ∧
    (CreateMultibodyGraph links joints).1.getLast? =
      some GraphCall.generateGraph := by
  refine ⟨rfl, ?_, ?_, ?_⟩
  · simp [CreateMultibodyGraph, jointTypeRegistrations, GetTypeString,
      List.take_append_of_le_length]
  · intro c hc n d b
    have hdrop : (CreateMultibodyGraph links joints).1.drop 6 =
        (addBodyCalls links).1 ++ (addJointCalls joints).1 ++
          [GraphCall.generateGraph] := by
      simp [CreateMultibodyGraph, jointTypeRegistrations, List.drop_append_eq_append_drop,
        List.append_assoc]
    rw [hdrop] at hc
    simp only [List.mem_append, List.mem_singleton] at hc
    rcases hc with (hc | hc) | hc
    · rw [addBodyCalls_eq] at hc
      simp only [List.mem_cons, List.mem_filterMap] at hc
      rcases hc with hc | ⟨l, _, hl⟩
      · simp [hc]
      · by_cases h : l.castOk <;> simp [h] at hl
        intro he
        rw [he] at hl
        exact absurd hl (by simp)
    · rw [addJointCalls_eq] at hc
      simp only [List.mem_filterMap] at hc
      obtain ⟨j, _, hj⟩ := hc
      by_cases h : j.castOk
      · rcases hp : j.parent with _ | p <;> rcases hch : j.child with _ | c2 <;>
          simp [h, hp, hch] at hj <;>
          (intro he; rw [he] at hj; exact absurd hj (by simp))
      · simp [h] at hj
    · simp [hc]
  · have : (CreateMultibodyGraph links joints).1 =
        (jointTypeRegistrations ++ (addBodyCalls links).1 ++
          (addJointCalls joints).1) ++ [GraphCall.generateGraph] := by
      simp [CreateMultibodyGraph, List.append_assoc]
    rw [this]
    simp

/-! ## C3: a joint without a valid child link is skipped, not fatal -/

/-- C3 counterexample: with one joint lacking a child link followed by a
valid joint, `CreateMultibodyGraph` does NOT abort — it reports the bad
joint via `gzerr`, still registers the following joint, and still calls
`generateGraph`.  This refutes the claim that graph construction for the
model aborts with an error reported to the caller instead of skipping the
joint and continuing. -/
theorem joint_without_child_not_fatal_counterexample :
    (GraphCall.addJoint "good" "revolute" "base" "arm" false ∈
      (CreateMultibodyGraph
        [{ name := "base", mass := 1, mustBeBaseLink := false, castOk := true },
         { name := "arm", mass := 1, mustBeBaseLink := false, castOk := true }]
        [{ name := "bad", kind := JointKind.hinge, parent := some "base",
           child := none, mustBreakLoopHere := false, castOk := true },
         { name := "good", kind := JointKind.hinge, parent := some "base",
           child := some "arm", mustBreakLoopHere := false, castOk := true }]).1) ∧
    (GraphCall.generateGraph ∈
      (CreateMultibodyGraph
        [{ name := "base", mass := 1, mustBeBaseLink := false, castOk := true },
         { name := "arm", mass := 1, mustBeBaseLink := false, castOk := true }]
        [{ name := "bad", kind := JointKind.hinge, parent := some "base",
           child := none, mustBreakLoopHere := false, castOk := true },
         { name := "good", kind := JointKind.hinge, parent := some "base",
           child := some "arm", mustBreakLoopHere := false, castOk := true }]).1) ∧
    (CreateMultibodyGraph
        [{ name := "base", mass := 1, mustBeBaseLink := false, castOk := true },
         { name := "arm", mass := 1, mustBeBaseLink := false, castOk := true }]
        [{ name := "bad", kind := JointKind.hinge, parent := some "base",
           child := none, mustBreakLoopHere := false, castOk := true },
         { name := "good", kind := JointKind.hinge, parent := some "base",
           child := some "arm", mustBreakLoopHere := false, castOk := true }]).2 =
      ["simbodyJoint [bad] does not have a valid child link, which is required"] := by
  refine ⟨?_, ?_, ?_⟩ <;>
    simp [CreateMultibodyGraph, addBodyCalls_eq, addJointCalls_eq,
      jointTypeRegistrations, GetTypeString]

/-- C3 amended: a joint lacking a valid child link is reported via the
`gzerr` diagnostic and skipped — no graph edge is added for it — while graph
construction continues: every later valid joint is still added and
`generateGraph` is still invoked. -/
theorem joint_without_child_skipped_and_continue
    (links : List GLink) (joints : List GJoint) (j : GJoint)
    (hmem : j ∈ joints) (hcast : j.castOk = true) (hchild : j.child = none) :
    ("simbodyJoint [" ++ j.name ++
        "] does not have a valid child link, which is required") ∈
      (CreateMultibodyGraph links joints).2 ∧
    (∀ ty p c b, GraphCall.addJoint j.name ty p c b ∈
        (CreateMultibodyGraph links joints).1 →
      ∃ j2 ∈ joints, j2.name = j.name ∧ j2.child ≠ none) ∧
    GraphCall.generateGraph ∈ (CreateMultibodyGraph links joints).1 := by
  refine ⟨?_, ?_, ?_⟩
  · simp only [CreateMultibodyGraph, addJointCalls_eq, List.mem_append,
      List.mem_filterMap]
    refine Or.inr ⟨j, hmem, ?_⟩
    rcases hp : j.parent with _ | p <;> simp [hcast, hp, hchild]
  · intro ty p c b hmem2
    simp only [CreateMultibodyGraph, addBodyCalls_eq, addJointCalls_eq,
      jointTypeRegistrations, List.mem_append, List.mem_cons,
      List.mem_filterMap, List.mem_singleton] at hmem2
    rcases hmem2 with ((h6 | (hw | ⟨l, _, hl⟩)) | ⟨j2, hj2, hcall⟩) | hg
    · simp [GetTypeString] at h6
    · exact absurd hw (by simp)
    · by_cases h : l.castOk <;> simp [h] at hl
    · refine ⟨j2, hj2, ?_⟩
      by_cases h : j2.castOk
      · rcases hp2 : j2.parent with _ | p2 <;> rcases hc2 : j2.child with _ | c2 <;>
          simp [h, hp2, hc2] at hcall
        · exact ⟨hcall.1.symm ▸ rfl, by simp [hc2]⟩
        · exact ⟨hcall.1.symm ▸ rfl, by simp [hc2]⟩
      · simp [h] at hcall
    · exact absurd hg (by simp)
  · simp [CreateMultibodyGraph]

/-- Witness for `joint_without_child_skipped_and_continue` at the concrete
two-joint model of the counterexample. -/
theorem joint_without_child_skipped_and_continue_witness :
    ("simbodyJoint [bad] does not have a valid child link, which is required") ∈
      (CreateMultibodyGraph
        [{ name := "base", mass := 1, mustBeBaseLink := false, castOk := true }]
        [{ name := "bad", kind := JointKind.hinge, parent := some "base",
           child := none, mustBreakLoopHere := false, castOk := true }]).2 ∧
    GraphCall.generateGraph ∈
      (CreateMultibodyGraph
        [{ name := "base", mass := 1, mustBeBaseLink := false, castOk := true }]
        [{ name := "bad", kind := JointKind.hinge, parent := some "base",
           child := none, mustBreakLoopHere := false, castOk := true }]).1 := by
  have h := joint_without_child_skipped_and_continue
    [{ name := "base", mass := 1, mustBeBaseLink := false, castOk := true }]
    [{ name := "bad", kind := JointKind.hinge, parent := some "base",
       child := none, mustBreakLoopHere := false, castOk := true }]
    { name := "bad", kind := JointKind.hinge, parent := some "base",
      child := none, mustBreakLoopHere := false, castOk := true }
    (by simp) rfl rfl
  exact ⟨h.1, h.2.2⟩

/-! ## C4: reversed mobilizers swap inboard/outboard frames -/

/-- C4: every mobilizer synthesized from an input joint uses the joint's
child-side frame `xCB` as inboard base and parent-side `xPA` as outboard
base with direction `Reverse` when the graph marked the joint reversed, and
`xPA` inboard / `xCB` outboard with `Forward` otherwise; in both cases the
resulting mobilizer handle and the reversed flag are stored on the joint
descriptor after construction. -/
theorem mobilizer_reversed_frames (τ : Type) (type : String) (rev : Bool)
    (j : SynthJoint τ) :
    (AddJointMobilizer type rev j).1.isReversed = rev ∧
    (AddJointMobilizer type rev j).1.mobod = (AddJointMobilizer type rev j).2.1 ∧
    ∀ m, (AddJointMobilizer type rev j).2.1 = some m →
      m.inboard.base = (if rev then j.xCB else j.xPA) ∧
      m.outboard.base = (if rev then j.xPA else j.xCB) ∧
      m.direction = (if rev then MobDir.Reverse else MobDir.Forward) := by
  refine ⟨rfl, rfl, fun m hm => ?_⟩
  have hm2 : (mobilizerFor type rev j).1 = some m := hm
  unfold mobilizerFor at hm2
  split_ifs at hm2 <;>
    first
    | (simp only [Option.some.injEq] at hm2; subst hm2; simp_all)
    | exact absurd hm2 (by simp)

/-- Witness for `mobilizer_reversed_frames` at a concrete reversed revolute
joint. -/
theorem mobilizer_reversed_frames_witness :
    (AddJointMobilizer "revolute" true
        { xPA := (10 : ℤ), xCB := 20, defxAB := 30, threadPitch := 1,
          lowerLimit := fun _ => 0, upperLimit := fun _ => 0,
          stopStiffness := fun _ => 0, stopDissipation := fun _ => 0,
          damping := fun _ => 0, stiffness := fun _ => 0,
          springRef := fun _ => 0, mobod := none,
          isReversed := false }).1.isReversed = true ∧
    ∀ m, (AddJointMobilizer "revolute" true
        { xPA := (10 : ℤ), xCB := 20, defxAB := 30, threadPitch := 1,
          lowerLimit := fun _ => 0, upperLimit := fun _ => 0,
          stopStiffness := fun _ => 0, stopDissipation := fun _ => 0,
          damping := fun _ => 0, stiffness := fun _ => 0,
          springRef := fun _ => 0, mobod := none,
          isReversed := false }).2.1 = some m →
      m.inboard.base = (if true then (20 : ℤ) else 10) ∧
      m.outboard.base = (if true then (10 : ℤ) else 20) ∧
      m.direction = (if true then MobDir.Reverse else MobDir.Forward) := by
  have h := mobilizer_reversed_frames ℤ "revolute" true
    { xPA := (10 : ℤ), xCB := 20, defxAB := 30, threadPitch := 1,
      lowerLimit := fun _ => 0, upperLimit := fun _ => 0,
      stopStiffness := fun _ => 0, stopDissipation := fun _ => 0,
      damping := fun _ => 0, stiffness := fun _ => 0,
      springRef := fun _ => 0, mobod := none, isReversed := false }
  exact ⟨h.1, h.2.2⟩

/-! ## C5: per-axis limit stop, damper and spring elements -/

/-- C5: for each joint type with controllable axes the synthesis attaches,
per axis, exactly one limit stop parameterized by stop stiffness, stop
dissipation, lower and upper limit; exactly one damper — created
unconditionally, i.e. for every damping coefficient including zero; and
exactly one spring parameterized by stiffness and spring reference
position.  Revolute, prismatic and screw get the triple on axis 0;
universal gets it on axes 0 and 1. -/
theorem force_elements_per_axis (τ : Type) (rev : Bool) (j : SynthJoint τ) :
    (AddJointMobilizer "revolute" rev j).2.2.1 =
      [ForceElem.limitStop 0 (j.stopStiffness 0) (j.stopDissipation 0)
          (j.lowerLimit 0) (j.upperLimit 0),
       ForceElem.damper 0 (j.damping 0),
       ForceElem.spring 0 (j.stiffness 0) (j.springRef 0)] ∧
    (AddJointMobilizer "prismatic" rev j).2.2.1 =
      [ForceElem.limitStop 0 (j.stopStiffness 0) (j.stopDissipation 0)
          (j.lowerLimit 0) (j.upperLimit 0),
       ForceElem.damper 0 (j.damping 0),
       ForceElem.spring 0 (j.stiffness 0) (j.springRef 0)] ∧
    (AddJointMobilizer "screw" rev j).2.2.1 =
      [ForceElem.limitStop 0 (j.stopStiffness 0) (j.stopDissipation 0)
          (j.lowerLimit 0) (j.upperLimit 0),
       ForceElem.damper 0 (j.damping 0),
       ForceElem.spring 0 (j.stiffness 0) (j.springRef 0)] ∧
    (AddJointMobilizer "universal" rev j).2.2.1 =
      [ForceElem.limitStop 0 (j.stopStiffness 0) (j.stopDissipation 0)
          (j.lowerLimit 0) (j.upperLimit 0),
       ForceElem.damper 0 (j.damping 0),
       ForceElem.spring 0 (j.stiffness 0) (j.springRef 0),
       ForceElem.limitStop 1 (j.stopStiffness 1) (j.stopDissipation 1)
          (j.lowerLimit 1) (j.upperLimit 1),
       ForceElem.damper 1 (j.damping 1),
       ForceElem.spring 1 (j.stiffness 1) (j.springRef 1)] := by
  refine ⟨?_, ?_, ?_, ?_⟩ <;>
    simp [AddJointMobilizer, mobilizerFor, axisForceElems]

/-! ## C10: Bullet slider stop setters mutate state before failing -/

/-- C10: `BulletSliderJoint::SetHighStop` / `SetLowStop` store the stop value
on the generic joint before checking for the native constraint: the stored
stop always equals the new angle, the call returns `false` exactly when the
native slider is absent, and in that failure case the joint state has
nevertheless been modified (non-atomic failure path). -/
theorem slider_stop_setters_not_atomic :
    (∀ (j : BulletSliderJoint) (a : ℚ),
      (SetHighStop j a).1.storedHigh = a ∧
      ((SetHighStop j a).2 = false ↔ j.bulletSlider = none) ∧
      (j.bulletSlider = none →
        SetHighStop j a = ({ j with storedHigh := a }, false))) ∧
    (∀ (j : BulletSliderJoint) (a : ℚ),
      (SetLowStop j a).1.storedLow = a ∧
      ((SetLowStop j a).2 = false ↔ j.bulletSlider = none) ∧
      (j.bulletSlider = none →
        SetLowStop j a = ({ j with storedLow := a }, false))) ∧
    (∀ (j : BulletSliderJoint) (a : ℚ), j.bulletSlider = none →
      a ≠ j.storedHigh → (SetHighStop j a).2 = false ∧ (SetHighStop j a).1 ≠ j) := by
  refine ⟨fun j a => ?_, fun j a => ?_, fun j a hn hne => ?_⟩
  · rcases hs : j.bulletSlider with _ | s <;>
      simp [SetHighStop, JointSetHighStop, hs]
  · rcases hs : j.bulletSlider with _ | s <;>
      simp [SetLowStop, JointSetLowStop, hs]
  · constructor
    · simp [SetHighStop, JointSetHighStop, hn]
    · simp only [SetHighStop, JointSetHighStop, hn]
      intro h
      exact hne (congrArg BulletSliderJoint.storedHigh h)

/-- Witness for `slider_stop_setters_not_atomic` at a concrete joint with no
native constraint. -/
theorem slider_stop_setters_not_atomic_witness :
    (SetHighStop { storedHigh := 0, storedLow := 0, bulletSlider := none } 5).2
        = false ∧
    (SetHighStop { storedHigh := 0, storedLow := 0, bulletSlider := none } 5).1
        ≠ { storedHigh := 0, storedLow := 0, bulletSlider := none } :=
  slider_stop_setters_not_atomic.2.2
    { storedHigh := 0, storedLow := 0, bulletSlider := none } 5 rfl (by norm_num)

/-! ## C8: clique membership of contact surfaces -/

theorem AddCollisionsToLink_surfaces (link : CLink) (modelClique : Option Nat) :
    (AddCollisionsToLink link modelClique).1 =
      link.collisions.flatMap (fun c =>
        match c.shape with
        | ShapeKind.plane _ =>
          [{ target := SurfTarget.ground, geom := ContactGeom.halfSpace,
             clique := none },
           { target := SurfTarget.linkBody, geom := ContactGeom.halfSpace,
             clique := if modelClique.isSome && !link.selfCollide then
               modelClique else none }]
        | ShapeKind.sphere r =>
          [{ target := SurfTarget.linkBody, geom := ContactGeom.sphere r,
             clique := if modelClique.isSome && !link.selfCollide then
               modelClique else none }]
        | ShapeKind.cylinder r len =>
          [{ target := SurfTarget.linkBody,
             geom := ContactGeom.triMeshCylinder r (len / 2),
             clique := if modelClique.isSome && !link.selfCollide then
               modelClique else none }]
        | ShapeKind.box sx sy sz =>
          [{ target := SurfTarget.linkBody,
             geom := ContactGeom.triMeshBrick (sx / 2) (sy / 2) (sz / 2),
             clique := if modelClique.isSome && !link.selfCollide then
               modelClique else none }]
        | ShapeKind.unsupported _ => []) := by
  unfold AddCollisionsToLink
  have main : ∀ (cs : List GzCollision) (init : List Surface × List String),
      (cs.foldl
        (fun acc c =>
          match c.shape with
          | ShapeKind.plane _ =>
            (acc.1 ++ [{ target := SurfTarget.ground,
                         geom := ContactGeom.halfSpace, clique := none },
                       { target := SurfTarget.linkBody,
                         geom := ContactGeom.halfSpace,
                         clique := if modelClique.isSome && !link.selfCollide
                           then modelClique else none }], acc.2)
          | ShapeKind.sphere r =>
            (acc.1 ++ [{ target := SurfTarget.linkBody,
                         geom := ContactGeom.sphere r,
                         clique := if modelClique.isSome && !link.selfCollide
                           then modelClique else none }], acc.2)
          | ShapeKind.cylinder r len =>
            (acc.1 ++ [{ target := SurfTarget.linkBody,
                         geom := ContactGeom.triMeshCylinder r (len / 2),
                         clique := if modelClique.isSome && !link.selfCollide
                           then modelClique else none }], acc.2)
          | ShapeKind.box sx sy sz =>
            (acc.1 ++ [{ target := SurfTarget.linkBody,
                         geom := ContactGeom.triMeshBrick (sx / 2) (sy / 2)
                           (sz / 2),
                         clique := if modelClique.isSome && !link.selfCollide
                           then modelClique else none }], acc.2)
          | ShapeKind.unsupported tag =>
            (acc.1, acc.2 ++ ["Collision type [" ++ toString tag ++
                "] unimplemented"]))
        init).1 =
      init.1 ++ cs.flatMap (fun c =>
        match c.shape with
        | ShapeKind.plane _ =>
          [{ target := SurfTarget.ground, geom := ContactGeom.halfSpace,
             clique := none },
           { target := SurfTarget.linkBody, geom := ContactGeom.halfSpace,
             clique := if modelClique.isSome && !link.selfCollide then
               modelClique else none }]
        | ShapeKind.sphere r =>
          [{ target := SurfTarget.linkBody, geom := ContactGeom.sphere r,
             clique := if modelClique.isSome && !link.selfCollide then
               modelClique else none }]
        | ShapeKind.cylinder r len =>
          [{ target := SurfTarget.linkBody,
             geom := ContactGeom.triMeshCylinder r (len / 2),
             clique := if modelClique.isSome && !link.selfCollide then
               modelClique else none }]
        | ShapeKind.box sx sy sz =>
          [{ target := SurfTarget.linkBody,
             geom := ContactGeom.triMeshBrick (sx / 2) (sy / 2) (sz / 2),
             clique := if modelClique.isSome && !link.selfCollide then
               modelClique else none }]
        | ShapeKind.unsupported _ => []) := by
    intro cs
    induction cs with
    | nil => intro init; simp
    | cons c t ih =>
      intro init
      rcases c with ⟨sh⟩
      rcases sh <;>
        simp only [List.foldl_cons, ih, List.flatMap_cons, List.cons_append,
          List.append_assoc, List.nil_append, List.singleton_append,
          List.append_nil]
  exact main link.collisions ([], [])

/-- C8: a contact surface created by `AddCollisionsToLink` for a link's
collision shape and attached to the link's mobilized body joins the
per-model no-self-collision clique if and only if the passed clique id is
valid and the link does not have self-collision enabled; static models pass
an invalid clique id and so none of their surfaces ever joins a clique. -/
theorem collision_surface_clique_membership :
    (∀ (link : CLink) (modelClique : Option Nat) (s : Surface),
      s ∈ (AddCollisionsToLink link modelClique).1 →
      s.target = SurfTarget.linkBody →
      s.clique = (if modelClique.isSome && !link.selfCollide then modelClique
                  else none)) ∧
    (∀ (link : CLink) (modelClique : Option Nat) (s : Surface),
      s ∈ (AddCollisionsToLink link modelClique).1 →
      (modelClique = none ∨ link.selfCollide = true) → s.clique = none) ∧
    (∀ (links : List CLink) (s : Surface),
      s ∈ (AddStaticModelToSimbodySystem links).1 → s.clique = none) := by
  have hmem : ∀ (link : CLink) (modelClique : Option Nat) (s : Surface),
      s ∈ (AddCollisionsToLink link modelClique).1 →
      s.clique = (if modelClique.isSome && !link.selfCollide then modelClique
                  else none) ∨
      (s.target = SurfTarget.ground ∧ s.clique = none) := by
    intro link modelClique s hs
    rw [AddCollisionsToLink_surfaces] at hs
    simp only [List.mem_flatMap] at hs
    obtain ⟨c, _, hsc⟩ := hs
    rcases c with ⟨sh⟩
    rcases sh <;> simp_all <;> rcases hsc with h | h <;> simp [h]
  refine ⟨fun link mc s hs ht => ?_, fun link mc s hs hcase => ?_,
    fun links s hs => ?_⟩
  · rcases hmem link mc s hs with h | ⟨hg, _⟩
    · exact h
    · rw [ht] at hg
      exact absurd hg (by simp)
  · rcases hmem link mc s hs with h | ⟨_, h⟩
    · rw [h]
      rcases hcase with h2 | h2 <;> simp [h2]
    · exact h
  · have main : ∀ (ls : List CLink) (init : List Surface × List String),
        s ∈ (ls.foldl (fun acc l =>
            let r := AddCollisionsToLink l none
            (acc.1 ++ r.1, acc.2 ++ r.2)) init).1 →
        s ∈ init.1 ∨ s.clique = none := by
      intro ls
      induction ls with
      | nil => intro init h; exact Or.inl h
      | cons l t ih =>
        intro init h
        rcases ih _ h with h2 | h2
        · simp only [List.mem_append] at h2
          rcases h2 with h3 | h3
          · exact Or.inl h3
          · rcases hmem l none s h3 with h4 | ⟨_, h4⟩
            · simp at h4
              exact Or.inr h4
            · exact Or.inr h4
        · exact Or.inr h2
    rcases main links ([], []) hs with h | h
    · exact absurd h (by simp)
    · exact h

/-- Witness for `collision_surface_clique_membership` at a concrete
self-collision-disabled link with a sphere collision and a valid clique. -/
theorem collision_surface_clique_membership_witness :
    ({ target := SurfTarget.linkBody, geom := ContactGeom.sphere 2,
       clique := some 7 } : Surface).clique =
      (if (some 7 : Option Nat).isSome &&
          !({ selfCollide := false,
              collisions := [{ shape := ShapeKind.sphere 2 }] } : CLink).selfCollide
        then (some 7 : Option Nat) else none) := by
  have h := collision_surface_clique_membership.1
    { selfCollide := false, collisions := [{ shape := ShapeKind.sphere 2 }] }
    (some 7)
    { target := SurfTarget.linkBody, geom := ContactGeom.sphere 2,
      clique := some 7 }
    (by rw [AddCollisionsToLink_surfaces]; simp)
    rfl
  exact h

/-! ## State-transfer lemmas for `InitModel` -/

theorem linksFold_jointQ (ls : List (SLink α)) (s : SolverState α) :
    (ls.foldl (fun st l => l.RestoreSimbodyState st) s).jointQ = s.jointQ := by
  induction ls generalizing s with
  | nil => rfl
  | cons l t ih => rw [List.foldl_cons, ih]; rfl

theorem jointsFold_linkQ (js : List (SJoint α)) (s : SolverState α) :
    (js.foldl (fun st j => j.RestoreSimbodyState st) s).linkQ = s.linkQ := by
  induction js generalizing s with
  | nil => rfl
  | cons j t ih => rw [List.foldl_cons, ih]; rfl

theorem jointsFold_time (js : List (SJoint α)) (s : SolverState α) :
    (js.foldl (fun st j => j.RestoreSimbodyState st) s).time = s.time := by
  induction js generalizing s with
  | nil => rfl
  | cons j t ih => rw [List.foldl_cons, ih]; rfl

theorem linksFold_time (ls : List (SLink α)) (s : SolverState α) :
    (ls.foldl (fun st l => l.RestoreSimbodyState st) s).time = s.time := by
  induction ls generalizing s with
  | nil => rfl
  | cons l t ih => rw [List.foldl_cons, ih]; rfl

theorem jointsFold_jointQ_not_mem (js : List (SJoint α)) (s : SolverState α)
    (k : Nat) (hk : k ∉ js.map SJoint.id) :
    (js.foldl (fun st j => j.RestoreSimbodyState st) s).jointQ k = s.jointQ k := by
  induction js generalizing s with
  | nil => rfl
  | cons j t ih =>
    simp only [List.map_cons, List.mem_cons, not_or] at hk
    rw [List.foldl_cons, ih _ hk.2]
    simp [SJoint.RestoreSimbodyState, hk.1]

theorem jointsFold_jointQ_mem (js : List (SJoint α)) (s : SolverState α)
    (j : SJoint α) (hj : j ∈ js) (hnd : (js.map SJoint.id).Nodup) :
    (js.foldl (fun st j2 => j2.RestoreSimbodyState st) s).jointQ j.id =
      j.savedState := by
  induction js generalizing s with
  | nil => cases hj
  | cons a t ih =>
    rw [List.map_cons, List.nodup_cons] at hnd
    rcases List.mem_cons.mp hj with rfl | hmem
    · rw [List.foldl_cons, jointsFold_jointQ_not_mem t _ _ hnd.1]
      simp [SJoint.RestoreSimbodyState]
    · rw [List.foldl_cons]
      exact ih _ hmem hnd.2

theorem linksFold_linkQ_not_mem (ls : List (SLink α)) (s : SolverState α)
    (k : Nat) (hk : k ∉ ls.map SLink.id) :
    (ls.foldl (fun st l => l.RestoreSimbodyState st) s).linkQ k = s.linkQ k := by
  induction ls generalizing s with
  | nil => rfl
  | cons l t ih =>
    simp only [List.map_cons, List.mem_cons, not_or] at hk
    rw [List.foldl_cons, ih _ hk.2]
    simp [SLink.RestoreSimbodyState, hk.1]

theorem linksFold_linkQ_mem (ls : List (SLink α)) (s : SolverState α)
    (l : SLink α) (hl : l ∈ ls) (hnd : (ls.map SLink.id).Nodup) :
    (ls.foldl (fun st l2 => l2.RestoreSimbodyState st) s).linkQ l.id =
      l.savedState := by
  induction ls generalizing s with
  | nil => cases hl
  | cons a t ih =>
    rw [List.map_cons, List.nodup_cons] at hnd
    rcases List.mem_cons.mp hl with rfl | hmem
    · rw [List.foldl_cons, linksFold_linkQ_not_mem t _ _ hnd.1]
      simp [SLink.RestoreSimbodyState]
    · rw [List.foldl_cons]
      exact ih _ hmem hnd.2

theorem restoreModel_time (m : SModel α) (s : SolverState α) :
    (restoreModel m s).time = s.time := by
  unfold restoreModel
  rw [linksFold_time, jointsFold_time]

theorem restoreModel_jointQ_not_mem (m : SModel α) (s : SolverState α)
    (k : Nat) (hk : k ∉ m.joints.map SJoint.id) :
    (restoreModel m s).jointQ k = s.jointQ k := by
  unfold restoreModel
  rw [linksFold_jointQ, jointsFold_jointQ_not_mem _ _ _ hk]

theorem restoreModel_jointQ_mem (m : SModel α) (s : SolverState α)
    (j : SJoint α) (hj : j ∈ m.joints) (hnd : (m.joints.map SJoint.id).Nodup) :
    (restoreModel m s).jointQ j.id = j.savedState := by
  unfold restoreModel
  rw [linksFold_jointQ, jointsFold_jointQ_mem _ _ _ hj hnd]

theorem restoreModel_linkQ_not_mem (m : SModel α) (s : SolverState α)
    (k : Nat) (hk : k ∉ m.links.map SLink.id) :
    (restoreModel m s).linkQ k = s.linkQ k := by
  unfold restoreModel
  rw [linksFold_linkQ_not_mem _ _ _ hk, jointsFold_linkQ]

theorem restoreModel_linkQ_mem (m : SModel α) (s : SolverState α)
    (l : SLink α) (hl : l ∈ m.links) (hnd : (m.links.map SLink.id).Nodup) :
    (restoreModel m s).linkQ l.id = l.savedState := by
  unfold restoreModel
  rw [linksFold_linkQ_mem _ _ _ hl]
  · exact hnd

theorem modelsFold_time (ms : List (SModel α)) (s : SolverState α) :
    (ms.foldl (fun st mi => restoreModel mi st) s).time = s.time := by
  induction ms generalizing s with
  | nil => rfl
  | cons m t ih => rw [List.foldl_cons, ih, restoreModel_time]

theorem modelsFold_jointQ_not_mem (ms : List (SModel α)) (s : SolverState α)
    (k : Nat) (hk : k ∉ allJointIds ms) :
    (ms.foldl (fun st mi => restoreModel mi st) s).jointQ k = s.jointQ k := by
  induction ms generalizing s with
  | nil => rfl
  | cons m t ih =>
    rw [allJointIds, List.mem_append, not_or] at hk
    rw [List.foldl_cons, ih _ hk.2, restoreModel_jointQ_not_mem _ _ _ hk.1]

theorem modelsFold_jointQ_mem (ms : List (SModel α)) (s : SolverState α)
    (mi : SModel α) (j : SJoint α) (hmi : mi ∈ ms) (hj : j ∈ mi.joints)
    (hnd : (allJointIds ms).Nodup) :
    (ms.foldl (fun st m2 => restoreModel m2 st) s).jointQ j.id = j.savedState := by
  induction ms generalizing s with
  | nil => cases hmi
  | cons m t ih =>
    rw [allJointIds, List.nodup_append] at hnd
    rcases List.mem_cons.mp hmi with rfl | hmem
    · have hk : j.id ∉ allJointIds t := by
        intro hin
        exact hnd.2.2 (List.mem_map_of_mem SJoint.id hj) hin
      rw [List.foldl_cons, modelsFold_jointQ_not_mem t _ _ hk,
        restoreModel_jointQ_mem _ _ _ hj hnd.1]
    · rw [List.foldl_cons]
      exact ih _ hmem hnd.2.1

theorem modelsFold_linkQ_not_mem (ms : List (SModel α)) (s : SolverState α)
    (k : Nat) (hk : k ∉ allLinkIds ms) :
    (ms.foldl (fun st mi => restoreModel mi st) s).linkQ k = s.linkQ k := by
  induction ms generalizing s with
  | nil => rfl
  | cons m t ih =>
    rw [allLinkIds, List.mem_append, not_or] at hk
    rw [List.foldl_cons, ih _ hk.2, restoreModel_linkQ_not_mem _ _ _ hk.1]

theorem modelsFold_linkQ_mem (ms : List (SModel α)) (s : SolverState α)
    (mi : SModel α) (l : SLink α) (hmi : mi ∈ ms) (hl : l ∈ mi.links)
    (hnd : (allLinkIds ms).Nodup) :
    (ms.foldl (fun st m2 => restoreModel m2 st) s).linkQ l.id = l.savedState := by
  induction ms generalizing s with
  | nil => cases hmi
  | cons m t ih =>
    rw [allLinkIds, List.nodup_append] at hnd
    rcases List.mem_cons.mp hmi with rfl | hmem
    · have hk : l.id ∉ allLinkIds t := by
        intro hin
        exact hnd.2.2 (List.mem_map_of_mem SLink.id hl) hin
      rw [List.foldl_cons, modelsFold_linkQ_not_mem t _ _ hk,
        restoreModel_linkQ_mem _ _ _ hl hnd.1]
    · rw [List.foldl_cons]
      exact ih _ hmem hnd.2.1

theorem saveModelStates_jointIds (cur : SolverState α) (m : SModel α) :
    (saveModelStates cur m).joints.map SJoint.id = m.joints.map SJoint.id := by
  simp [saveModelStates, SJoint.SaveSimbodyState]

theorem saveModelStates_linkIds (cur : SolverState α) (m : SModel α) :
    (saveModelStates cur m).links.map SLink.id = m.links.map SLink.id := by
  simp [saveModelStates, SLink.SaveSimbodyState]

theorem saveAllExcept_jointIds (w : SWorld α) (mid : Nat)
    (cur : SolverState α) :
    allJointIds (saveAllExcept w mid cur).models = allJointIds w.models := by
  show allJointIds (w.models.map _) = _
  induction w.models with
  | nil => rfl
  | cons m t ih =>
    rw [List.map_cons, allJointIds, allJointIds, ih]
    by_cases h : m.id = mid <;> simp [h, saveModelStates_jointIds]

theorem saveAllExcept_linkIds (w : SWorld α) (mid : Nat)
    (cur : SolverState α) :
    allLinkIds (saveAllExcept w mid cur).models = allLinkIds w.models := by
  show allLinkIds (w.models.map _) = _
  induction w.models with
  | nil => rfl
  | cons m t ih =>
    rw [List.map_cons, allLinkIds, allLinkIds, ih]
    by_cases h : m.id = mid <;> simp [h, saveModelStates_linkIds]

/-! ## C1: state transfer across a topology rebuild -/

/-- C1: when `InitModel` runs for model `mid` while a prior solver state
exists (`cur.stage ≠ Empty`), the generalized state of every joint and link
of every other model is captured (the returned world is
`saveAllExcept w mid cur`, whose buffers hold the pre-rebuild values) and,
after the new topology is realized, those values and the saved simulation
time are present in the state handed to `integ->initialize`; when no prior
state exists, no capture or restore happens and the integrator is
initialized from the default topology state.  Identities are assumed
globally distinct ("keyed by a stable joint/link identity"). -/
theorem initmodel_state_transfer (α : Type) (w : SWorld α) (mid : Nat)
    (cur : SolverState α) (dflt : α)
    (hjnd : (allJointIds w.models).Nodup)
    (hlnd : (allLinkIds w.models).Nodup) :
    (cur.stage ≠ SStage.Empty →
      ∃ st : SolverState α,
        InitModel w mid cur dflt (Except.ok ()) (Except.ok ()) =
          Except.ok (saveAllExcept w mid cur, st) ∧
        st.time = cur.time ∧
        (∀ mi ∈ w.models, mi.id ≠ mid →
          (∀ j ∈ mi.joints, st.jointQ j.id = cur.jointQ j.id) ∧
          (∀ l ∈ mi.links, st.linkQ l.id = cur.linkQ l.id))) ∧
    (cur.stage = SStage.Empty →
      InitModel w mid cur dflt (Except.ok ()) (Except.ok ()) =
        Except.ok (w, realizeTopology dflt)) := by
  constructor
  · intro hne
    have hs : decide (cur.stage ≠ SStage.Empty) = true := decide_eq_true hne
    refine ⟨restoreAll (saveAllExcept w mid cur)
      { realizeTopology dflt with time := cur.time }, ?_, ?_, ?_⟩
    · simp [InitModel, hs]
    · exact modelsFold_time _ _
    · intro mi hmi hne2
      have hmi2 : saveModelStates cur mi ∈ (saveAllExcept w mid cur).models := by
        simp only [saveAllExcept, List.mem_map]
        exact ⟨mi, hmi, by simp [hne2]⟩
      have hjnd2 : (allJointIds (saveAllExcept w mid cur).models).Nodup := by
        rw [saveAllExcept_jointIds]; exact hjnd
      have hlnd2 : (allLinkIds (saveAllExcept w mid cur).models).Nodup := by
        rw [saveAllExcept_linkIds]; exact hlnd
      constructor
      · intro j hj
        have hj2 : SJoint.SaveSimbodyState cur j ∈ (saveModelStates cur mi).joints :=
          List.mem_map_of_mem _ hj
        have h := modelsFold_jointQ_mem (saveAllExcept w mid cur).models
          { realizeTopology dflt with time := cur.time }
          (saveModelStates cur mi) (SJoint.SaveSimbodyState cur j) hmi2 hj2 hjnd2
        simpa [SJoint.SaveSimbodyState, restoreAll] using h
      · intro l hl
        have hl2 : SLink.SaveSimbodyState cur l ∈ (saveModelStates cur mi).links :=
          List.mem_map_of_mem _ hl
        have h := modelsFold_linkQ_mem (saveAllExcept w mid cur).models
          { realizeTopology dflt with time := cur.time }
          (saveModelStates cur mi) (SLink.SaveSimbodyState cur l) hmi2 hl2 hlnd2
        simpa [SLink.SaveSimbodyState, restoreAll] using h
  · intro hempty
    have hs : decide (cur.stage ≠ SStage.Empty) = false := by
      simp [hempty]
    simp [InitModel, hs]

/-- Witness for `initmodel_state_transfer`: a concrete two-model world with a
non-empty prior state; the other model's joint and link values survive the
rebuild and the time is restored. -/
theorem initmodel_state_transfer_witness :
    ∃ st : SolverState ℤ,
      InitModel
        { models :=
            [{ id := 1, joints := [{ id := 10, savedState := (0 : ℤ) }],
               links := [{ id := 20, savedState := (0 : ℤ) }] },
             { id := 2, joints := [{ id := 11, savedState := (0 : ℤ) }],
               links := [{ id := 21, savedState := (0 : ℤ) }] }] }
        2
        { stage := SStage.Dynamics, time := 3, jointQ := fun k => (k : ℤ),
          linkQ := fun k => (k : ℤ) + 100 }
        (0 : ℤ) (Except.ok ()) (Except.ok ()) =
        Except.ok (saveAllExcept
          { models :=
              [{ id := 1, joints := [{ id := 10, savedState := (0 : ℤ) }],
                 links := [{ id := 20, savedState := (0 : ℤ) }] },
               { id := 2, joints := [{ id := 11, savedState := (0 : ℤ) }],
                 links := [{ id := 21, savedState := (0 : ℤ) }] }] }
          2
          { stage := SStage.Dynamics, time := 3, jointQ := fun k => (k : ℤ),
            linkQ := fun k => (k : ℤ) + 100 }, st) ∧
      st.time = 3 ∧
      st.jointQ 10 = 10 ∧ st.linkQ 20 = 120 := by
  have h := (initmodel_state_transfer ℤ
    { models :=
        [{ id := 1, joints := [{ id := 10, savedState := (0 : ℤ) }],
           links := [{ id := 20, savedState := (0 : ℤ) }] },
         { id := 2, joints := [{ id := 11, savedState := (0 : ℤ) }],
           links := [{ id := 21, savedState := (0 : ℤ) }] }] }
    2
    { stage := SStage.Dynamics, time := 3, jointQ := fun k => (k : ℤ),
      linkQ := fun k => (k : ℤ) + 100 }
    0
    (by simp [allJointIds])
    (by simp [allLinkIds])).1 (by simp)
  obtain ⟨st, heq, htime, hmods⟩ := h
  have hm := hmods
    { id := 1, joints := [{ id := 10, savedState := (0 : ℤ) }],
      links := [{ id := 20, savedState := (0 : ℤ) }] }
    (by simp) (by simp)
  refine ⟨st, heq, htime, ?_, ?_⟩
  · have := hm.1 { id := 10, savedState := (0 : ℤ) } (by simp)
    simpa using this
  · have := hm.2 { id := 20, savedState := (0 : ℤ) } (by simp)
    simpa using this

/-! ## C7: exception wrapping at the rebuild boundary -/

/-- C7: an exception thrown by the native build phase inside `InitModel` is
rethrown as a fatal error prefixed "Simbody build EXCEPTION: " carrying the
original message; an exception thrown during system initialization is
rethrown prefixed "Simbody init EXCEPTION: "; and `InitModel` only succeeds
when neither phase threw — a native exception is never swallowed. -/
theorem initmodel_exception_wrapping (α : Type) (w : SWorld α) (mid : Nat)
    (cur : SolverState α) (dflt : α) :
    (∀ (msg : String) (initRes : Except String Unit),
      InitModel w mid cur dflt (Except.error msg) initRes =
        Except.error ("Simbody build EXCEPTION: " ++ msg)) ∧
    (∀ msg : String,
      InitModel w mid cur dflt (Except.ok ()) (Except.error msg) =
        Except.error ("Simbody init EXCEPTION: " ++ msg)) ∧
    (∀ (buildRes initRes : Except String Unit) (r : SWorld α × SolverState α),
      InitModel w mid cur dflt buildRes initRes = Except.ok r →
        buildRes = Except.ok () ∧ initRes = Except.ok ()) := by
  refine ⟨fun msg initRes => rfl, fun msg => rfl,
    fun buildRes initRes r h => ?_⟩
  rcases buildRes with e | u
  · exact absurd h (by simp [InitModel])
  · rcases initRes with e2 | u2
    · exact absurd h (by simp [InitModel])
    · exact ⟨rfl, rfl⟩

/-- Witness for `initmodel_exception_wrapping` at a concrete world: a
failing build phase is wrapped, and the success case discharges the
third conjunct's hypothesis at a concrete successful run. -/
theorem initmodel_exception_wrapping_witness :
    InitModel ({ models := [] } : SWorld ℤ) 0
      { stage := SStage.Empty, time := 0, jointQ := fun _ => 0,
        linkQ := fun _ => 0 } 0
      (Except.error "boom") (Except.ok ()) =
      Except.error ("Simbody build EXCEPTION: " ++ "boom") ∧
    ((Except.ok () : Except String Unit) = Except.ok () ∧
     (Except.ok () : Except String Unit) = Except.ok ()) := by
  refine ⟨(initmodel_exception_wrapping ℤ { models := [] } 0
    { stage := SStage.Empty, time := 0, jointQ := fun _ => 0,
      linkQ := fun _ => 0 } 0).1 "boom" (Except.ok ()), ?_⟩
  exact (initmodel_exception_wrapping ℤ { models := [] } 0
    { stage := SStage.Empty, time := 0, jointQ := fun _ => 0,
      linkQ := fun _ => 0 } 0).2.2 (Except.ok ()) (Except.ok ())
    ({ models := [] }, realizeTopology 0) rfl

/-! ## Frame-converter lemmas (C9) -/

theorem sq3_zero {a b c : ℝ} (h : a ^ 2 + b ^ 2 + c ^ 2 = 0) :
    a = 0 ∧ b = 0 ∧ c = 0 := by
  have ha : a ^ 2 = 0 :=
    le_antisymm (by nlinarith [sq_nonneg b, sq_nonneg c]) (sq_nonneg a)
  have hb : b ^ 2 = 0 :=
    le_antisymm (by nlinarith [sq_nonneg a, sq_nonneg c]) (sq_nonneg b)
  have hc : c ^ 2 = 0 :=
    le_antisymm (by nlinarith [sq_nonneg a, sq_nonneg b]) (sq_nonneg c)
  exact ⟨(pow_eq_zero_iff (by norm_num : (2 : ℕ) ≠ 0)).mp ha,
    (pow_eq_zero_iff (by norm_num : (2 : ℕ) ≠ 0)).mp hb,
    (pow_eq_zero_iff (by norm_num : (2 : ℕ) ≠ 0)).mp hc⟩

theorem Quat.normSq_nonneg (q : Quat) : 0 ≤ q.normSq := by
  simp only [Quat.normSq]
  positivity

/-- A unit quaternion is left unchanged by the constructor normalization. -/
theorem Quat.normalized_of_unit (q : Quat) (h : q.IsUnit) :
    q.normalized = q := by
  rw [Quat.normalized, h]
  simp [Quat.smul]

/-- For a rotation matrix, each entry equals its cofactor (`adj R = Rᵀ`):
the nine cross-product identities between the rows. -/
theorem Rot3.rigid_cofactors (R : Rot3) (h : R.IsRigid) :
    (R.m11 * R.m22 - R.m12 * R.m21 = R.m00 ∧
     R.m12 * R.m20 - R.m10 * R.m22 = R.m01 ∧
     R.m10 * R.m21 - R.m11 * R.m20 = R.m02) ∧
    (R.m21 * R.m02 - R.m22 * R.m01 = R.m10 ∧
     R.m22 * R.m00 - R.m20 * R.m02 = R.m11 ∧
     R.m20 * R.m01 - R.m21 * R.m00 = R.m12) ∧
    (R.m01 * R.m12 - R.m02 * R.m11 = R.m20 ∧
     R.m02 * R.m10 - R.m00 * R.m12 = R.m21 ∧
     R.m00 * R.m11 - R.m01 * R.m10 = R.m22) := by
  obtain ⟨hr0, hr1, hr2, hd01, hd02, hd12, hdet⟩ := h
  rw [Rot3.det] at hdet
  have key1 : (R.m11 * R.m22 - R.m12 * R.m21 - R.m00) ^ 2 +
      (R.m12 * R.m20 - R.m10 * R.m22 - R.m01) ^ 2 +
      (R.m10 * R.m21 - R.m11 * R.m20 - R.m02) ^ 2 = 0 := by
    linear_combination (R.m20 ^ 2 + R.m21 ^ 2 + R.m22 ^ 2) * hr1 + hr2 -
      (R.m10 * R.m20 + R.m11 * R.m21 + R.m12 * R.m22) * hd12 - 2 * hdet + hr0
  have key2 : (R.m21 * R.m02 - R.m22 * R.m01 - R.m10) ^ 2 +
      (R.m22 * R.m00 - R.m20 * R.m02 - R.m11) ^ 2 +
      (R.m20 * R.m01 - R.m21 * R.m00 - R.m12) ^ 2 = 0 := by
    linear_combination (R.m00 ^ 2 + R.m01 ^ 2 + R.m02 ^ 2) * hr2 + hr0 -
      (R.m00 * R.m20 + R.m01 * R.m21 + R.m02 * R.m22) * hd02 - 2 * hdet + hr1
  have key3 : (R.m01 * R.m12 - R.m02 * R.m11 - R.m20) ^ 2 +
      (R.m02 * R.m10 - R.m00 * R.m12 - R.m21) ^ 2 +
      (R.m00 * R.m11 - R.m01 * R.m10 - R.m22) ^ 2 = 0 := by
    linear_combination (R.m10 ^ 2 + R.m11 ^ 2 + R.m12 ^ 2) * hr0 + hr1 -
      (R.m00 * R.m10 + R.m01 * R.m11 + R.m02 * R.m12) * hd01 - 2 * hdet + hr2
  obtain ⟨k1a, k1b, k1c⟩ := sq3_zero key1
  obtain ⟨k2a, k2b, k2c⟩ := sq3_zero key2
  obtain ⟨k3a, k3b, k3c⟩ := sq3_zero key3
  exact ⟨⟨by linarith, by linarith, by linarith⟩,
    ⟨by linarith, by linarith, by linarith⟩,
    ⟨by linarith, by linarith, by linarith⟩⟩

/-- For a rotation matrix, the columns are orthonormal as well. -/
theorem Rot3.rigid_cols (R : Rot3) (h : R.IsRigid) :
    (R.m00 ^ 2 + R.m10 ^ 2 + R.m20 ^ 2 = 1 ∧
     R.m01 ^ 2 + R.m11 ^ 2 + R.m21 ^ 2 = 1 ∧
     R.m02 ^ 2 + R.m12 ^ 2 + R.m22 ^ 2 = 1) ∧
    (R.m00 * R.m01 + R.m10 * R.m11 + R.m20 * R.m21 = 0 ∧
     R.m00 * R.m02 + R.m10 * R.m12 + R.m20 * R.m22 = 0 ∧
     R.m01 * R.m02 + R.m11 * R.m12 + R.m21 * R.m22 = 0) := by
  obtain ⟨⟨hf0, hf1, hf2⟩, ⟨hf3, hf4, hf5⟩, ⟨hf6, hf7, hf8⟩⟩ :=
    R.rigid_cofactors h
  obtain ⟨hr0, hr1, hr2, hd01, hd02, hd12, hdet⟩ := h
  refine ⟨⟨?_, ?_, ?_⟩, ?_, ?_, ?_⟩
  · linear_combination hr0 + R.m01 * hf1 + R.m02 * hf2 - R.m10 * hf3 -
      R.m20 * hf6
  · linear_combination hr0 + R.m00 * hf0 + R.m02 * hf2 - R.m11 * hf4 -
      R.m21 * hf7
  · linear_combination -hr0 + hr1 + hr2 - R.m00 * hf0 - R.m01 * hf1 -
      2 * R.m02 * hf2 + R.m10 * hf3 + R.m11 * hf4 + R.m20 * hf6 + R.m21 * hf7
  · linear_combination -R.m01 * hf0 - R.m11 * hf3 - R.m21 * hf6
  · linear_combination -R.m02 * hf0 - R.m12 * hf3 - R.m22 * hf6
  · linear_combination -R.m02 * hf1 - R.m12 * hf4 - R.m22 * hf7

/-- Glue step of the Shepperd-extraction correctness proof: if the branch
vector `v` reproduces `4·t` times the matrix homogeneously and has squared
norm `4·t > 0`, then normalizing it (with either sign of the scale) yields a
unit quaternion whose rotation matrix is `R`. -/
theorem shepperd_glue (v : Quat) (R : Rot3) (t : ℝ)
    (hsv : v.normSq = 4 * t) (hpos : 0 < t)
    (h00 : v.w ^ 2 + v.x ^ 2 - v.y ^ 2 - v.z ^ 2 = 4 * t * R.m00)
    (h01 : 2 * (v.x * v.y - v.w * v.z) = 4 * t * R.m01)
    (h02 : 2 * (v.x * v.z + v.w * v.y) = 4 * t * R.m02)
    (h10 : 2 * (v.x * v.y + v.w * v.z) = 4 * t * R.m10)
    (h11 : v.w ^ 2 - v.x ^ 2 + v.y ^ 2 - v.z ^ 2 = 4 * t * R.m11)
    (h12 : 2 * (v.y * v.z - v.w * v.x) = 4 * t * R.m12)
    (h20 : 2 * (v.x * v.z - v.w * v.y) = 4 * t * R.m20)
    (h21 : 2 * (v.y * v.z + v.w * v.x) = 4 * t * R.m21)
    (h22 : v.w ^ 2 - v.x ^ 2 - v.y ^ 2 + v.z ^ 2 = 4 * t * R.m22) :
    (Quat.smul
      (1 / (if v.w < 0 then -Real.sqrt v.normSq else Real.sqrt v.normSq))
      v).IsUnit ∧
    (Quat.smul
      (1 / (if v.w < 0 then -Real.sqrt v.normSq else Real.sqrt v.normSq))
      v).toRot = R := by
  have hnn : 0 ≤ v.normSq := v.normSq_nonneg
  have hposn : 0 < v.normSq := by rw [hsv]; linarith
  set s : ℝ := if v.w < 0 then -Real.sqrt v.normSq else Real.sqrt v.normSq
    with hsdef
  have hs2 : s ^ 2 = v.normSq := by
    rw [hsdef]
    by_cases hw : v.w < 0 <;> simp [hw, Real.sq_sqrt hnn]
  have hsne : s ≠ 0 := by
    have hsqrt : Real.sqrt v.normSq ≠ 0 := by
      intro h0
      rw [Real.sqrt_eq_zero hnn] at h0
      exact absurd h0 hposn.ne'
    rw [hsdef]
    by_cases hw : v.w < 0 <;> simp [hw, hsqrt]
  have hc2 : (1 / s) ^ 2 * v.normSq = 1 := by
    rw [div_pow, one_pow, hs2]
    field_simp
  rw [Quat.normSq] at hc2 hsv
  refine ⟨?_, ?_⟩
  · show (Quat.smul (1 / s) v).normSq = 1
    simp only [Quat.normSq, Quat.smul]
    linear_combination hc2
  · ext <;> simp only [Quat.toRot, Quat.smul]
    · linear_combination (1 / s) ^ 2 * h00 + R.m00 * hc2 -
        R.m00 * (1 / s) ^ 2 * hsv
    · linear_combination (1 / s) ^ 2 * h01 + R.m01 * hc2 -
        R.m01 * (1 / s) ^ 2 * hsv
    · linear_combination (1 / s) ^ 2 * h02 + R.m02 * hc2 -
        R.m02 * (1 / s) ^ 2 * hsv
    · linear_combination (1 / s) ^ 2 * h10 + R.m10 * hc2 -
        R.m10 * (1 / s) ^ 2 * hsv
    · linear_combination (1 / s) ^ 2 * h11 + R.m11 * hc2 -
        R.m11 * (1 / s) ^ 2 * hsv
    · linear_combination (1 / s) ^ 2 * h12 + R.m12 * hc2 -
        R.m12 * (1 / s) ^ 2 * hsv
    · linear_combination (1 / s) ^ 2 * h20 + R.m20 * hc2 -
        R.m20 * (1 / s) ^ 2 * hsv
    · linear_combination (1 / s) ^ 2 * h21 + R.m21 * hc2 -
        R.m21 * (1 / s) ^ 2 * hsv
    · linear_combination (1 / s) ^ 2 * h22 + R.m22 * hc2 -
        R.m22 * (1 / s) ^ 2 * hsv

set_option maxHeartbeats 2000000 in
/-- Shepperd extraction is correct on every rotation matrix: the extracted
quaternion is a unit quaternion whose rotation matrix is the input. -/
theorem Rot3.toQuat_spec (R : Rot3) (h : R.IsRigid) :
    (R.toQuat).IsUnit ∧ (R.toQuat).toRot = R := by
  obtain ⟨⟨hf0, hf1, hf2⟩, ⟨hf3, hf4, hf5⟩, ⟨hf6, hf7, hf8⟩⟩ :=
    R.rigid_cofactors h
  obtain ⟨⟨hg0, hg1, hg2⟩, ⟨hg3, hg4, hg5⟩⟩ := R.rigid_cols h
  obtain ⟨hr0, hr1, hr2, hd01, hd02, hd12, hdet⟩ := h
  have hq : R.toQuat = Quat.smul
      (1 / (if (R.shepperdVec).w < 0 then -Real.sqrt (R.shepperdVec).normSq
        else Real.sqrt (R.shepperdVec).normSq)) R.shepperdVec := rfl
  by_cases hb1 : R.trace ≥ R.m00 ∧ R.trace ≥ R.m11 ∧ R.trace ≥ R.m22
  · -- branch 1: trace largest
    have hv : R.shepperdVec = ⟨1 + R.trace, R.m21 - R.m12, R.m02 - R.m20, R.m10 - R.m01⟩ := by
      rw [Rot3.shepperdVec, if_pos hb1]
    have hpos : 0 < 1 + R.trace := by
      have a := hb1.1
      have b := hb1.2.1
      have c := hb1.2.2
      simp only [Rot3.trace] at a b c ⊢
      linarith
    have hsv : (⟨1 + R.trace, R.m21 - R.m12, R.m02 - R.m20, R.m10 - R.m01⟩ : Quat).normSq = 4 * (1 + R.trace) := by
      simp only [Quat.normSq, Rot3.trace]
      linear_combination hr0 + hr1 + hr2 + (2) * hf0 + (2) * hf4 + (2) * hf8
    have h00 : (1 + R.trace) ^ 2 + (R.m21 - R.m12) ^ 2 - (R.m02 - R.m20) ^ 2 - (R.m10 - R.m01) ^ 2 = 4 * (1 + R.trace) * R.m00 := by
      simp only [Rot3.trace]
      linear_combination -hr0 + hr1 + hr2 + (-2) * hg0 + (2) * hf0 + (-2) * hf4 + (-2) * hf8
    have h01 : 2 * ((R.m21 - R.m12) * (R.m02 - R.m20) - (1 + R.trace) * (R.m10 - R.m01)) = 4 * (1 + R.trace) * R.m01 := by
      simp only [Rot3.trace]
      linear_combination (-2) * hd01 + (-2) * hg3 + (2) * hf1 + (2) * hf3
    have h02 : 2 * ((R.m21 - R.m12) * (R.m10 - R.m01) + (1 + R.trace) * (R.m02 - R.m20)) = 4 * (1 + R.trace) * R.m02 := by
      simp only [Rot3.trace]
      linear_combination (-2) * hd02 + (-2) * hg4 + (2) * hf2 + (2) * hf6
    have h10 : 2 * ((R.m21 - R.m12) * (R.m02 - R.m20) + (1 + R.trace) * (R.m10 - R.m01)) = 4 * (1 + R.trace) * R.m10 := by
      simp only [Rot3.trace]
      linear_combination (-2) * hd01 + (-2) * hg3 + (2) * hf1 + (2) * hf3
    have h11 : (1 + R.trace) ^ 2 - (R.m21 - R.m12) ^ 2 + (R.m02 - R.m20) ^ 2 - (R.m10 - R.m01) ^ 2 = 4 * (1 + R.trace) * R.m11 := by
      simp only [Rot3.trace]
      linear_combination hr0 - hr1 + hr2 + (-2) * hg1 + (-2) * hf0 + (2) * hf4 + (-2) * hf8
    have h12 : 2 * ((R.m02 - R.m20) * (R.m10 - R.m01) - (1 + R.trace) * (R.m21 - R.m12)) = 4 * (1 + R.trace) * R.m12 := by
      simp only [Rot3.trace]
      linear_combination (-2) * hd12 + (-2) * hg5 + (2) * hf5 + (2) * hf7
    have h20 : 2 * ((R.m21 - R.m12) * (R.m10 - R.m01) - (1 + R.trace) * (R.m02 - R.m20)) = 4 * (1 + R.trace) * R.m20 := by
      simp only [Rot3.trace]
      linear_combination (-2) * hd02 + (-2) * hg4 + (2) * hf2 + (2) * hf6
    have h21 : 2 * ((R.m02 - R.m20) * (R.m10 - R.m01) + (1 + R.trace) * (R.m21 - R.m12)) = 4 * (1 + R.trace) * R.m21 := by
      simp only [Rot3.trace]
      linear_combination (-2) * hd12 + (-2) * hg5 + (2) * hf5 + (2) * hf7
    have h22 : (1 + R.trace) ^ 2 - (R.m21 - R.m12) ^ 2 - (R.m02 - R.m20) ^ 2 + (R.m10 - R.m01) ^ 2 = 4 * (1 + R.trace) * R.m22 := by
      simp only [Rot3.trace]
      linear_combination -hr0 - hr1 + (-3) * hr2 + (2) * hg0 + (2) * hg1 + (-2) * hf0 + (-2) * hf4 + (2) * hf8
    have hglue := shepperd_glue ⟨1 + R.trace, R.m21 - R.m12, R.m02 - R.m20, R.m10 - R.m01⟩ R (1 + R.trace) hsv hpos
      h00 h01 h02 h10 h11 h12 h20 h21 h22
    rw [hq, hv]
    exact hglue
  · by_cases hb2 : R.m00 ≥ R.m11 ∧ R.m00 ≥ R.m22
    · -- branch 2: R.m00 largest diagonal
      have hv : R.shepperdVec = ⟨R.m21 - R.m12, 1 - (R.trace - 2 * R.m00), R.m01 + R.m10, R.m02 + R.m20⟩ := by
        rw [Rot3.shepperdVec, if_neg hb1, if_pos hb2]
      have htr : R.trace < R.m00 := by
        by_contra hge
        push_neg at hge
        exact hb1 ⟨hge, by linarith [hb2.1], by linarith [hb2.2]⟩
      have hm00ge : (-1 : ℝ) ≤ R.m00 := by
        nlinarith [hr0, sq_nonneg (R.m00 + 1), sq_nonneg R.m01, sq_nonneg R.m02]
      have hpos : 0 < 1 - (R.trace - 2 * R.m00) := by
        simp only [Rot3.trace] at htr ⊢
        linarith
      have hsv : (⟨R.m21 - R.m12, 1 - (R.trace - 2 * R.m00), R.m01 + R.m10, R.m02 + R.m20⟩ : Quat).normSq = 4 * (1 - (R.trace - 2 * R.m00)) := by
        simp only [Quat.normSq, Rot3.trace]
        linear_combination hr0 + hr1 + hr2 + (2) * hf0 + (-2) * hf4 + (-2) * hf8
      have h00 : (R.m21 - R.m12) ^ 2 + (1 - (R.trace - 2 * R.m00)) ^ 2 - (R.m01 + R.m10) ^ 2 - (R.m02 + R.m20) ^ 2 = 4 * (1 - (R.trace - 2 * R.m00)) * R.m00 := by
        simp only [Rot3.trace]
        linear_combination -hr0 + hr1 + hr2 + (-2) * hg0 + (2) * hf0 + (2) * hf4 + (2) * hf8
      have h01 : 2 * ((1 - (R.trace - 2 * R.m00)) * (R.m01 + R.m10) - (R.m21 - R.m12) * (R.m02 + R.m20)) = 4 * (1 - (R.trace - 2 * R.m00)) * R.m01 := by
        simp only [Rot3.trace]
        linear_combination (2) * hd01 + (-2) * hg3 + (2) * hf1 + (-2) * hf3
      have h02 : 2 * ((1 - (R.trace - 2 * R.m00)) * (R.m02 + R.m20) + (R.m21 - R.m12) * (R.m01 + R.m10)) = 4 * (1 - (R.trace - 2 * R.m00)) * R.m02 := by
        simp only [Rot3.trace]
        linear_combination (2) * hd02 + (-2) * hg4 + (2) * hf2 + (-2) * hf6
      have h10 : 2 * ((1 - (R.trace - 2 * R.m00)) * (R.m01 + R.m10) + (R.m21 - R.m12) * (R.m02 + R.m20)) = 4 * (1 - (R.trace - 2 * R.m00)) * R.m10 := by
        simp only [Rot3.trace]
        linear_combination (-2) * hd01 + (2) * hg3 + (-2) * hf1 + (2) * hf3
      have h11 : (R.m21 - R.m12) ^ 2 - (1 - (R.trace - 2 * R.m00)) ^ 2 + (R.m01 + R.m10) ^ 2 - (R.m02 + R.m20) ^ 2 = 4 * (1 - (R.trace - 2 * R.m00)) * R.m11 := by
        simp only [Rot3.trace]
        linear_combination -hr0 + hr1 - hr2 + (2) * hg1 + (2) * hf0 + (2) * hf4 + (-2) * hf8
      have h12 : 2 * ((R.m01 + R.m10) * (R.m02 + R.m20) - (R.m21 - R.m12) * (1 - (R.trace - 2 * R.m00))) = 4 * (1 - (R.trace - 2 * R.m00)) * R.m12 := by
        simp only [Rot3.trace]
        linear_combination (2) * hd12 + (2) * hg5 + (2) * hf5 + (2) * hf7
      have h20 : 2 * ((1 - (R.trace - 2 * R.m00)) * (R.m02 + R.m20) - (R.m21 - R.m12) * (R.m01 + R.m10)) = 4 * (1 - (R.trace - 2 * R.m00)) * R.m20 := by
        simp only [Rot3.trace]
        linear_combination (-2) * hd02 + (2) * hg4 + (-2) * hf2 + (2) * hf6
      have h21 : 2 * ((R.m01 + R.m10) * (R.m02 + R.m20) + (R.m21 - R.m12) * (1 - (R.trace - 2 * R.m00))) = 4 * (1 - (R.trace - 2 * R.m00)) * R.m21 := by
        simp only [Rot3.trace]
        linear_combination (2) * hd12 + (2) * hg5 + (2) * hf5 + (2) * hf7
      have h22 : (R.m21 - R.m12) ^ 2 - (1 - (R.trace - 2 * R.m00)) ^ 2 - (R.m01 + R.m10) ^ 2 + (R.m02 + R.m20) ^ 2 = 4 * (1 - (R.trace - 2 * R.m00)) * R.m22 := by
        simp only [Rot3.trace]
        linear_combination hr0 + hr1 + (3) * hr2 + (-2) * hg0 + (-2) * hg1 + (2) * hf0 + (-2) * hf4 + (2) * hf8
      have hglue := shepperd_glue ⟨R.m21 - R.m12, 1 - (R.trace - 2 * R.m00), R.m01 + R.m10, R.m02 + R.m20⟩ R (1 - (R.trace - 2 * R.m00)) hsv hpos
        h00 h01 h02 h10 h11 h12 h20 h21 h22
      rw [hq, hv]
      exact hglue
    · by_cases hb3 : R.m11 ≥ R.m22
      · -- branch 3: R.m11 largest diagonal
        have hv : R.shepperdVec = ⟨R.m02 - R.m20, R.m01 + R.m10, 1 - (R.trace - 2 * R.m11), R.m12 + R.m21⟩ := by
          rw [Rot3.shepperdVec, if_neg hb1, if_neg hb2, if_pos hb3]
        have hlt : R.m00 < R.m11 := by
          by_contra hge
          push_neg at hge
          exact hb2 ⟨hge, by linarith [hb3]⟩
        have hm22le : R.m22 ≤ 1 := by
          nlinarith [hr2, sq_nonneg (R.m22 - 1), sq_nonneg R.m20, sq_nonneg R.m21]
        have hpos : 0 < 1 - (R.trace - 2 * R.m11) := by
          simp only [Rot3.trace] at hlt ⊢
          linarith
        have hsv : (⟨R.m02 - R.m20, R.m01 + R.m10, 1 - (R.trace - 2 * R.m11), R.m12 + R.m21⟩ : Quat).normSq = 4 * (1 - (R.trace - 2 * R.m11)) := by
          simp only [Quat.normSq, Rot3.trace]
          linear_combination hr0 + hr1 + hr2 + (-2) * hf0 + (2) * hf4 + (-2) * hf8
        have h00 : (R.m02 - R.m20) ^ 2 + (R.m01 + R.m10) ^ 2 - (1 - (R.trace - 2 * R.m11)) ^ 2 - (R.m12 + R.m21) ^ 2 = 4 * (1 - (R.trace - 2 * R.m11)) * R.m00 := by
          simp only [Rot3.trace]
          linear_combination hr0 - hr1 - hr2 + (2) * hg0 + (2) * hf0 + (2) * hf4 + (-2) * hf8
        have h01 : 2 * ((R.m01 + R.m10) * (1 - (R.trace - 2 * R.m11)) - (R.m02 - R.m20) * (R.m12 + R.m21)) = 4 * (1 - (R.trace - 2 * R.m11)) * R.m01 := by
          simp only [Rot3.trace]
          linear_combination (-2) * hd01 + (2) * hg3 + (2) * hf1 + (-2) * hf3
        have h02 : 2 * ((R.m01 + R.m10) * (R.m12 + R.m21) + (R.m02 - R.m20) * (1 - (R.trace - 2 * R.m11))) = 4 * (1 - (R.trace - 2 * R.m11)) * R.m02 := by
          simp only [Rot3.trace]
          linear_combination (2) * hd02 + (2) * hg4 + (2) * hf2 + (2) * hf6
        have h10 : 2 * ((R.m01 + R.m10) * (1 - (R.trace - 2 * R.m11)) + (R.m02 - R.m20) * (R.m12 + R.m21)) = 4 * (1 - (R.trace - 2 * R.m11)) * R.m10 := by
          simp only [Rot3.trace]
          linear_combination (2) * hd01 + (-2) * hg3 + (-2) * hf1 + (2) * hf3
        have h11 : (R.m02 - R.m20) ^ 2 - (R.m01 + R.m10) ^ 2 + (1 - (R.trace - 2 * R.m11)) ^ 2 - (R.m12 + R.m21) ^ 2 = 4 * (1 - (R.trace - 2 * R.m11)) * R.m11 := by
          simp only [Rot3.trace]
          linear_combination hr0 - hr1 + hr2 + (-2) * hg1 + (2) * hf0 + (2) * hf4 + (2) * hf8
        have h12 : 2 * ((1 - (R.trace - 2 * R.m11)) * (R.m12 + R.m21) - (R.m02 - R.m20) * (R.m01 + R.m10)) = 4 * (1 - (R.trace - 2 * R.m11)) * R.m12 := by
          simp only [Rot3.trace]
          linear_combination (2) * hd12 + (-2) * hg5 + (2) * hf5 + (-2) * hf7
        have h20 : 2 * ((R.m01 + R.m10) * (R.m12 + R.m21) - (R.m02 - R.m20) * (1 - (R.trace - 2 * R.m11))) = 4 * (1 - (R.trace - 2 * R.m11)) * R.m20 := by
          simp only [Rot3.trace]
          linear_combination (2) * hd02 + (2) * hg4 + (2) * hf2 + (2) * hf6
        have h21 : 2 * ((1 - (R.trace - 2 * R.m11)) * (R.m12 + R.m21) + (R.m02 - R.m20) * (R.m01 + R.m10)) = 4 * (1 - (R.trace - 2 * R.m11)) * R.m21 := by
          simp only [Rot3.trace]
          linear_combination (-2) * hd12 + (2) * hg5 + (-2) * hf5 + (2) * hf7
        have h22 : (R.m02 - R.m20) ^ 2 - (R.m01 + R.m10) ^ 2 - (1 - (R.trace - 2 * R.m11)) ^ 2 + (R.m12 + R.m21) ^ 2 = 4 * (1 - (R.trace - 2 * R.m11)) * R.m22 := by
          simp only [Rot3.trace]
          linear_combination hr0 + hr1 + (3) * hr2 + (-2) * hg0 + (-2) * hg1 + (-2) * hf0 + (2) * hf4 + (2) * hf8
        have hglue := shepperd_glue ⟨R.m02 - R.m20, R.m01 + R.m10, 1 - (R.trace - 2 * R.m11), R.m12 + R.m21⟩ R (1 - (R.trace - 2 * R.m11)) hsv hpos
          h00 h01 h02 h10 h11 h12 h20 h21 h22
        rw [hq, hv]
        exact hglue
      · -- branch 4: R.m22 largest diagonal
        have hv : R.shepperdVec = ⟨R.m10 - R.m01, R.m02 + R.m20, R.m12 + R.m21, 1 - (R.trace - 2 * R.m22)⟩ := by
          rw [Rot3.shepperdVec, if_neg hb1, if_neg hb2, if_neg hb3]
        have hb3n : R.m11 < R.m22 := lt_of_not_ge hb3
        have hlt : R.m00 < R.m22 := by
          rcases not_and_or.mp hb2 with h2 | h2
          · push_neg at h2
            linarith
          · push_neg at h2
            linarith
        have hm11le : R.m11 ≤ 1 := by
          nlinarith [hr1, sq_nonneg (R.m11 - 1), sq_nonneg R.m10, sq_nonneg R.m12]
        have hpos : 0 < 1 - (R.trace - 2 * R.m22) := by
          simp only [Rot3.trace] at hlt ⊢
          linarith
        have hsv : (⟨R.m10 - R.m01, R.m02 + R.m20, R.m12 + R.m21, 1 - (R.trace - 2 * R.m22)⟩ : Quat).normSq = 4 * (1 - (R.trace - 2 * R.m22)) := by
          simp only [Quat.normSq, Rot3.trace]
          linear_combination hr0 + hr1 + hr2 + (-2) * hf0 + (-2) * hf4 + (2) * hf8
        have h00 : (R.m10 - R.m01) ^ 2 + (R.m02 + R.m20) ^ 2 - (R.m12 + R.m21) ^ 2 - (1 - (R.trace - 2 * R.m22)) ^ 2 = 4 * (1 - (R.trace - 2 * R.m22)) * R.m00 := by
          simp only [Rot3.trace]
          linear_combination hr0 - hr1 - hr2 + (2) * hg0 + (2) * hf0 + (-2) * hf4 + (2) * hf8
        have h01 : 2 * ((R.m02 + R.m20) * (R.m12 + R.m21) - (R.m10 - R.m01) * (1 - (R.trace - 2 * R.m22))) = 4 * (1 - (R.trace - 2 * R.m22)) * R.m01 := by
          simp only [Rot3.trace]
          linear_combination (2) * hd01 + (2) * hg3 + (2) * hf1 + (2) * hf3
        have h02 : 2 * ((R.m02 + R.m20) * (1 - (R.trace - 2 * R.m22)) + (R.m10 - R.m01) * (R.m12 + R.m21)) = 4 * (1 - (R.trace - 2 * R.m22)) * R.m02 := by
          simp only [Rot3.trace]
          linear_combination (-2) * hd02 + (2) * hg4 + (2) * hf2 + (-2) * hf6
        have h10 : 2 * ((R.m02 + R.m20) * (R.m12 + R.m21) + (R.m10 - R.m01) * (1 - (R.trace - 2 * R.m22))) = 4 * (1 - (R.trace - 2 * R.m22)) * R.m10 := by
          simp only [Rot3.trace]
          linear_combination (2) * hd01 + (2) * hg3 + (2) * hf1 + (2) * hf3
        have h11 : (R.m10 - R.m01) ^ 2 - (R.m02 + R.m20) ^ 2 + (R.m12 + R.m21) ^ 2 - (1 - (R.trace - 2 * R.m22)) ^ 2 = 4 * (1 - (R.trace - 2 * R.m22)) * R.m11 := by
          simp only [Rot3.trace]
          linear_combination -hr0 + hr1 - hr2 + (2) * hg1 + (-2) * hf0 + (2) * hf4 + (2) * hf8
        have h12 : 2 * ((R.m12 + R.m21) * (1 - (R.trace - 2 * R.m22)) - (R.m10 - R.m01) * (R.m02 + R.m20)) = 4 * (1 - (R.trace - 2 * R.m22)) * R.m12 := by
          simp only [Rot3.trace]
          linear_combination (-2) * hd12 + (2) * hg5 + (2) * hf5 + (-2) * hf7
        have h20 : 2 * ((R.m02 + R.m20) * (1 - (R.trace - 2 * R.m22)) - (R.m10 - R.m01) * (R.m12 + R.m21)) = 4 * (1 - (R.trace - 2 * R.m22)) * R.m20 := by
          simp only [Rot3.trace]
          linear_combination (2) * hd02 + (-2) * hg4 + (-2) * hf2 + (2) * hf6
        have h21 : 2 * ((R.m12 + R.m21) * (1 - (R.trace - 2 * R.m22)) + (R.m10 - R.m01) * (R.m02 + R.m20)) = 4 * (1 - (R.trace - 2 * R.m22)) * R.m21 := by
          simp only [Rot3.trace]
          linear_combination (2) * hd12 + (-2) * hg5 + (-2) * hf5 + (2) * hf7
        have h22 : (R.m10 - R.m01) ^ 2 - (R.m02 + R.m20) ^ 2 - (R.m12 + R.m21) ^ 2 + (1 - (R.trace - 2 * R.m22)) ^ 2 = 4 * (1 - (R.trace - 2 * R.m22)) * R.m22 := by
          simp only [Rot3.trace]
          linear_combination -hr0 - hr1 + (-3) * hr2 + (2) * hg0 + (2) * hg1 + (2) * hf0 + (2) * hf4 + (2) * hf8
        have hglue := shepperd_glue ⟨R.m10 - R.m01, R.m02 + R.m20, R.m12 + R.m21, 1 - (R.trace - 2 * R.m22)⟩ R (1 - (R.trace - 2 * R.m22)) hsv hpos
          h00 h01 h02 h10 h11 h12 h20 h21 h22
        rw [hq, hv]
        exact hglue

/-- The rotation matrix of a unit quaternion is a rotation matrix. -/
theorem Quat.toRot_isRigid (q : Quat) (hq : q.IsUnit) :
    (q.toRot).IsRigid := by
  rw [Quat.IsUnit, Quat.normSq] at hq
  refine ⟨?_, ?_, ?_, ?_, ?_, ?_, ?_⟩ <;>
    simp only [Quat.toRot, Rot3.det]
  · linear_combination (q.w ^ 2 + q.x ^ 2 + q.y ^ 2 + q.z ^ 2 + 1) * hq
  · linear_combination (q.w ^ 2 + q.x ^ 2 + q.y ^ 2 + q.z ^ 2 + 1) * hq
  · linear_combination (q.w ^ 2 + q.x ^ 2 + q.y ^ 2 + q.z ^ 2 + 1) * hq
  · ring
  · ring
  · ring
  · linear_combination ((q.w ^ 2 + q.x ^ 2 + q.y ^ 2 + q.z ^ 2) ^ 2 +
      (q.w ^ 2 + q.x ^ 2 + q.y ^ 2 + q.z ^ 2) + 1) * hq

/-- Two unit quaternions with the same rotation matrix agree up to sign. -/
theorem Quat.toRot_inj_sign (p q : Quat) (hp : p.IsUnit) (hq : q.IsUnit)
    (h : p.toRot = q.toRot) : p = q ∨ p = q.neg := by
  rw [Quat.IsUnit, Quat.normSq] at hp hq
  have e00 := congrArg Rot3.m00 h
  have e01 := congrArg Rot3.m01 h
  have e02 := congrArg Rot3.m02 h
  have e10 := congrArg Rot3.m10 h
  have e11 := congrArg Rot3.m11 h
  have e12 := congrArg Rot3.m12 h
  have e20 := congrArg Rot3.m20 h
  have e21 := congrArg Rot3.m21 h
  have e22 := congrArg Rot3.m22 h
  simp only [Quat.toRot] at e00 e01 e02 e10 e11 e12 e20 e21 e22
  have hww : p.w * p.w = q.w * q.w := by
    linear_combination (1 / 4 : ℝ) * e00 + (1 / 4 : ℝ) * e11 +
      (1 / 4 : ℝ) * e22 + (1 / 4 : ℝ) * hp - (1 / 4 : ℝ) * hq
  have hxx : p.x * p.x = q.x * q.x := by
    linear_combination (1 / 4 : ℝ) * e00 - (1 / 4 : ℝ) * e11 -
      (1 / 4 : ℝ) * e22 + (1 / 4 : ℝ) * hp - (1 / 4 : ℝ) * hq
  have hyy : p.y * p.y = q.y * q.y := by
    linear_combination (-1 / 4 : ℝ) * e00 + (1 / 4 : ℝ) * e11 -
      (1 / 4 : ℝ) * e22 + (1 / 4 : ℝ) * hp - (1 / 4 : ℝ) * hq
  have hzz : p.z * p.z = q.z * q.z := by
    linear_combination (-1 / 4 : ℝ) * e00 - (1 / 4 : ℝ) * e11 +
      (1 / 4 : ℝ) * e22 + (1 / 4 : ℝ) * hp - (1 / 4 : ℝ) * hq
  have hwx : p.w * p.x = q.w * q.x := by
    linear_combination (1 / 4 : ℝ) * e21 - (1 / 4 : ℝ) * e12
  have hwy : p.w * p.y = q.w * q.y := by
    linear_combination (1 / 4 : ℝ) * e02 - (1 / 4 : ℝ) * e20
  have hwz : p.w * p.z = q.w * q.z := by
    linear_combination (1 / 4 : ℝ) * e10 - (1 / 4 : ℝ) * e01
  have hxy : p.x * p.y = q.x * q.y := by
    linear_combination (1 / 4 : ℝ) * e01 + (1 / 4 : ℝ) * e10
  have hxz : p.x * p.z = q.x * q.z := by
    linear_combination (1 / 4 : ℝ) * e02 + (1 / 4 : ℝ) * e20
  have hyz : p.y * p.z = q.y * q.z := by
    linear_combination (1 / 4 : ℝ) * e12 + (1 / 4 : ℝ) * e21
  by_cases hw : q.w = 0
  · by_cases hx : q.x = 0
    · by_cases hy : q.y = 0
      · -- q.z ≠ 0
        have hz : q.z ≠ 0 := by
          intro hz0
          rw [hw, hx, hy, hz0] at hq
          norm_num at hq
        have hpz : p.z = q.z ∨ p.z = -q.z := by
          rcases mul_eq_zero.mp (show (p.z - q.z) * (p.z + q.z) = 0 by
            linear_combination hzz) with h2 | h2
          · exact Or.inl (by linarith)
          · exact Or.inr (by linarith)
        rcases hpz with hpz | hpz
        · refine Or.inl (Quat.ext ?_ ?_ ?_ ?_)
          · rw [hw]
            have := hwz
            rw [hpz, hw] at this
            exact mul_right_cancel₀ hz this
          · rw [hx]
            have := hxz
            rw [hpz, hx] at this
            exact mul_right_cancel₀ hz this
          · rw [hy]
            have := hyz
            rw [hpz, hy] at this
            exact mul_right_cancel₀ hz this
          · exact hpz
        · refine Or.inr (Quat.ext ?_ ?_ ?_ ?_)
          · show p.w = -q.w
            rw [hw]
            have := hwz
            rw [hpz, hw] at this
            have hz2 : p.w * -q.z = 0 * -q.z := by linarith
            have := mul_right_cancel₀ (neg_ne_zero.mpr hz) hz2
            simpa using this
          · show p.x = -q.x
            rw [hx]
            have := hxz
            rw [hpz, hx] at this
            have hz2 : p.x * -q.z = 0 * -q.z := by linarith
            have := mul_right_cancel₀ (neg_ne_zero.mpr hz) hz2
            simpa using this
          · show p.y = -q.y
            rw [hy]
            have := hyz
            rw [hpz, hy] at this
            have hz2 : p.y * -q.z = 0 * -q.z := by linarith
            have := mul_right_cancel₀ (neg_ne_zero.mpr hz) hz2
            simpa using this
          · exact hpz
      · -- q.y ≠ 0
        have hpy : p.y = q.y ∨ p.y = -q.y := by
          rcases mul_eq_zero.mp (show (p.y - q.y) * (p.y + q.y) = 0 by
            linear_combination hyy) with h2 | h2
          · exact Or.inl (by linarith)
          · exact Or.inr (by linarith)
        rcases hpy with hpy | hpy
        · refine Or.inl (Quat.ext ?_ ?_ ?_ ?_)
          · rw [hw]
            have := hwy
            rw [hpy, hw] at this
            exact mul_right_cancel₀ hy this
          · rw [hx]
            have := hxy
            rw [hpy, hx] at this
            exact mul_right_cancel₀ hy this
          · exact hpy
          · have := hyz
            rw [hpy] at this
            exact mul_left_cancel₀ hy this
        · refine Or.inr (Quat.ext ?_ ?_ ?_ ?_)
          · show p.w = -q.w
            rw [hw]
            have := hwy
            rw [hpy, hw] at this
            have h2 : p.w * -q.y = 0 * -q.y := by linarith
            simpa using mul_right_cancel₀ (neg_ne_zero.mpr hy) h2
          · show p.x = -q.x
            rw [hx]
            have := hxy
            rw [hpy, hx] at this
            have h2 : p.x * -q.y = 0 * -q.y := by linarith
            simpa using mul_right_cancel₀ (neg_ne_zero.mpr hy) h2
          · exact hpy
          · show p.z = -q.z
            have := hyz
            rw [hpy] at this
            have h2 : -q.y * p.z = -q.y * -q.z := by ring_nf; linarith [this]
            exact mul_left_cancel₀ (neg_ne_zero.mpr hy) h2
    · -- q.x ≠ 0
      have hpx : p.x = q.x ∨ p.x = -q.x := by
        rcases mul_eq_zero.mp (show (p.x - q.x) * (p.x + q.x) = 0 by
          linear_combination hxx) with h2 | h2
        · exact Or.inl (by linarith)
        · exact Or.inr (by linarith)
      rcases hpx with hpx | hpx
      · refine Or.inl (Quat.ext ?_ ?_ ?_ ?_)
        · rw [hw]
          have := hwx
          rw [hpx, hw] at this
          exact mul_right_cancel₀ hx this
        · exact hpx
        · have := hxy
          rw [hpx] at this
          exact mul_left_cancel₀ hx this
        · have := hxz
          rw [hpx] at this
          exact mul_left_cancel₀ hx this
      · refine Or.inr (Quat.ext ?_ ?_ ?_ ?_)
        · show p.w = -q.w
          rw [hw]
          have := hwx
          rw [hpx, hw] at this
          have h2 : p.w * -q.x = 0 * -q.x := by linarith
          simpa using mul_right_cancel₀ (neg_ne_zero.mpr hx) h2
        · exact hpx
        · show p.y = -q.y
          have := hxy
          rw [hpx] at this
          have h2 : -q.x * p.y = -q.x * -q.y := by ring_nf; linarith [this]
          exact mul_left_cancel₀ (neg_ne_zero.mpr hx) h2
        · show p.z = -q.z
          have := hxz
          rw [hpx] at this
          have h2 : -q.x * p.z = -q.x * -q.z := by ring_nf; linarith [this]
          exact mul_left_cancel₀ (neg_ne_zero.mpr hx) h2
  · -- q.w ≠ 0
    have hpw : p.w = q.w ∨ p.w = -q.w := by
      rcases mul_eq_zero.mp (show (p.w - q.w) * (p.w + q.w) = 0 by
        linear_combination hww) with h2 | h2
      · exact Or.inl (by linarith)
      · exact Or.inr (by linarith)
    rcases hpw with hpw | hpw
    · refine Or.inl (Quat.ext ?_ ?_ ?_ ?_)
      · exact hpw
      · have := hwx
        rw [hpw] at this
        exact mul_left_cancel₀ hw this
      · have := hwy
        rw [hpw] at this
        exact mul_left_cancel₀ hw this
      · have := hwz
        rw [hpw] at this
        exact mul_left_cancel₀ hw this
    · refine Or.inr (Quat.ext ?_ ?_ ?_ ?_)
      · exact hpw
      · show p.x = -q.x
        have := hwx
        rw [hpw] at this
        have h2 : -q.w * p.x = -q.w * -q.x := by ring_nf; linarith [this]
        exact mul_left_cancel₀ (neg_ne_zero.mpr hw) h2
      · show p.y = -q.y
        have := hwy
        rw [hpw] at this
        have h2 : -q.w * p.y = -q.w * -q.y := by ring_nf; linarith [this]
        exact mul_left_cancel₀ (neg_ne_zero.mpr hw) h2
      · show p.z = -q.z
        have := hwz
        rw [hpw] at this
        have h2 : -q.w * p.z = -q.w * -q.z := by ring_nf; linarith [this]
        exact mul_left_cancel₀ (neg_ne_zero.mpr hw) h2

/-! ## C9: the frame converters are mutually inverse -/

/-- C9: the frame converters are mutually inverse pure functions.  For every
pose whose rotation is a unit quaternion, `Transform2Pose (Pose2Transform p)`
equals `p` with the position exact and the rotation recovered up to
quaternion sign; and for every rigid transform `t`,
`Pose2Transform (Transform2Pose t)` equals `t` exactly. -/
theorem frame_converters_mutually_inverse :
    (∀ p : Pose, p.rot.IsUnit →
      Transform2Pose (Pose2Transform p) = p ∨
      Transform2Pose (Pose2Transform p) = { pos := p.pos, rot := p.rot.neg }) ∧
    (∀ t : Xform, t.IsRigid → Pose2Transform (Transform2Pose t) = t) := by
  constructor
  · intro p hq
    have hR : (p.rot.toRot).IsRigid := p.rot.toRot_isRigid hq
    have hspec := Rot3.toQuat_spec _ hR
    have hstep : Transform2Pose (Pose2Transform p) =
        { pos := p.pos, rot := (p.rot.toRot).toQuat } := by
      rw [Pose2Transform, Transform2Pose, Quat.normalized_of_unit _ hq]
    rcases Quat.toRot_inj_sign ((p.rot.toRot).toQuat) p.rot hspec.1 hq
        hspec.2 with heq | heq
    · left
      rw [hstep, heq]
    · right
      rw [hstep, heq]
  · intro t ht
    have hspec := Rot3.toQuat_spec t.R ht
    rw [Transform2Pose, Pose2Transform]
    simp only
    rw [Quat.normalized_of_unit _ hspec.1, hspec.2]

/-- Witness for `frame_converters_mutually_inverse`: a concrete unit-rotation
pose and a concrete rigid transform. -/
theorem frame_converters_mutually_inverse_witness :
    (Transform2Pose (Pose2Transform
        { pos := ⟨1, 2, 3⟩, rot := ⟨1, 0, 0, 0⟩ }) =
        { pos := ⟨1, 2, 3⟩, rot := ⟨1, 0, 0, 0⟩ } ∨
     Transform2Pose (Pose2Transform
        { pos := ⟨1, 2, 3⟩, rot := ⟨1, 0, 0, 0⟩ }) =
        { pos := (⟨1, 2, 3⟩ : V3),
          rot := Quat.neg ⟨1, 0, 0, 0⟩ }) ∧
    Pose2Transform (Transform2Pose
        { R := ⟨1, 0, 0, 0, 3 / 5, -(4 / 5), 0, 4 / 5, 3 / 5⟩,
          p := ⟨4, 5, 6⟩ }) =
      { R := ⟨1, 0, 0, 0, 3 / 5, -(4 / 5), 0, 4 / 5, 3 / 5⟩,
        p := ⟨4, 5, 6⟩ } := by
  constructor
  · exact frame_converters_mutually_inverse.1
      { pos := ⟨1, 2, 3⟩, rot := ⟨1, 0, 0, 0⟩ }
      (by rw [Quat.IsUnit, Quat.normSq]; norm_num)
  · exact frame_converters_mutually_inverse.2
      { R := ⟨1, 0, 0, 0, 3 / 5, -(4 / 5), 0, 4 / 5, 3 / 5⟩, p := ⟨4, 5, 6⟩ }
      (by
        refine ⟨?_, ?_, ?_, ?_, ?_, ?_, ?_⟩ <;>
          simp only [Rot3.det] <;> norm_num)

end Gz
